import Mathlib

/-!
Shallow embedding of the acquisition state machine of the inst2txt repository:
the media download manager (`src/download_reels.py`), the SQLite status store
(`src/db_manager.py`) and the Hiker-API account processor (`src/hiker.py`).
Pure Lean functions mirror the Python control flow; external effects (file
system, network, clock) are abstracted into environment records, and the
SQLite tables into Lean lists of rows.
-/

/-! ## Download manager (`src/download_reels.py`, `process_user`) -/

/-- The two media kinds a download task can carry (`file_type` in the source:
`'video'` or `'thumbnail'`). -/
inductive MediaKind where
  | video
  | thumb
deriving DecidableEq, Repr

/-- Environment of one `process_user` run: which files already exist on disk,
the stored URLs (`get_reel_video_url` / `get_reel_thumbnail_url`), and whether
the network transfer of a video for a given pk succeeds. -/
structure DLEnv where
  videoExists : String → Bool
  thumbExists : String → Bool
  videoUrl : String → Option String
  thumbUrl : String → Option String
  videoOk : String → Bool

/-- One task handed to `asyncio.gather`: the reel pk and the media kind. -/
structure DLTask where
  pk : String
  kind : MediaKind
deriving DecidableEq, Repr

/-- Observable state of a `process_user` run: the pks marked downloaded and
unavailable (in marking order), the pending failure streak `failed_video_pks`,
the `consecutive_video_failures` counter, the `any_downloaded` flag, all
network requests issued, the number of circuit-breaker pauses taken, and the
number of tasks of each nonempty gather. -/
structure DLState where
  downloaded : List String
  unavailable : List String
  failed : List String
  consec : Nat
  anyDownloaded : Bool
  requests : List DLTask
  pauses : Nat
  batchSizes : List Nat
deriving DecidableEq, Repr

/-- Initial state of `process_user`. -/
def initDL : DLState :=
  { downloaded := [], unavailable := [], failed := [], consec := 0,
    anyDownloaded := false, requests := [], pauses := 0, batchSizes := [] }

/-- The task-building loop over one batch (`for pk in reels_in_batch`): a pk
whose video file exists is marked downloaded at once; otherwise a video task is
appended when a video URL is stored; independently a thumbnail task is appended
when the thumbnail file is absent and a thumbnail URL is stored. -/
def batchPrepare (env : DLEnv) : List String → DLState → DLState × List DLTask
  | [], st => (st, [])
  | pk :: rest, st =>
      let vstep : DLState × List DLTask :=
        if env.videoExists pk then
          ({ st with downloaded := st.downloaded ++ [pk] }, [])
        else
          match env.videoUrl pk with
          | some _ => (st, [⟨pk, MediaKind.video⟩])
          | none => (st, [])
      let ttasks : List DLTask :=
        if env.thumbExists pk then []
        else
          match env.thumbUrl pk with
          | some _ => [⟨pk, MediaKind.thumb⟩]
          | none => []
      let next := batchPrepare env rest vstep.1
      (next.1, vstep.2 ++ ttasks ++ next.2)

/-- The result-classification loop (`for res in video_results`): a failure
appends the pk to the streak and bumps the counter, pausing and zeroing the
counter at 3; a success flushes the streak to unavailable, marks the pk
downloaded and zeroes the counter. -/
def runVideoResults : List (String × Bool) → DLState → DLState
  | [], st => st
  | (pk, ok) :: rest, st =>
      if ok then
        runVideoResults rest
          { st with
            unavailable := st.unavailable ++ st.failed
            failed := []
            downloaded := st.downloaded ++ [pk]
            anyDownloaded := true
            consec := 0 }
      else
        let st1 := { st with failed := st.failed ++ [pk], consec := st.consec + 1 }
        let st2 :=
          if 3 ≤ st1.consec then { st1 with consec := 0, pauses := st1.pauses + 1 }
          else st1
        runVideoResults rest st2

/-- The `while i < len(reel_ids_to_download)` loop: slice off a batch of 5 ids,
build its tasks, and when any exist, gather them (recorded in `requests` and
`batchSizes`) and process the video results. -/
def dlLoop (env : DLEnv) : List String → DLState → DLState
  | [], st => st
  | pk :: rest, st =>
      if (batchPrepare env ((pk :: rest).take 5) st).2.isEmpty then
        dlLoop env ((pk :: rest).drop 5) (batchPrepare env ((pk :: rest).take 5) st).1
      else
        dlLoop env ((pk :: rest).drop 5) (runVideoResults
          (((batchPrepare env ((pk :: rest).take 5) st).2.filter
            (fun t => t.kind == MediaKind.video)).map (fun t => (t.pk, env.videoOk t.pk)))
          { (batchPrepare env ((pk :: rest).take 5) st).1 with
            requests := (batchPrepare env ((pk :: rest).take 5) st).1.requests ++
              (batchPrepare env ((pk :: rest).take 5) st).2
            batchSizes := (batchPrepare env ((pk :: rest).take 5) st).1.batchSizes ++
              [(batchPrepare env ((pk :: rest).take 5) st).2.length] })
termination_by ids => ids.length
decreasing_by
  all_goals simp [List.length_drop]; omega

/-- `process_user`: run the batch loop over the work list with
`max_concurrent = 5`, then flush any failure streak still open to
unavailable. -/
def process_user (env : DLEnv) (reel_ids_to_download : List String) : DLState :=
  let st := dlLoop env reel_ids_to_download initDL
  { st with unavailable := st.unavailable ++ st.failed }

/-- C1: in a `process_user` run where three consecutive video downloads fail
and the next video download succeeds, the success flushes exactly those three
pks to unavailable, marks the succeeding pk downloaded, and leaves the
consecutive-failure counter at 0; the third failure triggered exactly one
cooldown pause that zeroed the counter while keeping the failure streak. -/
theorem c1_streak_flush (env : DLEnv) (a b c d ua ub uc ud : String)
    (hea : env.videoExists a = false) (heb : env.videoExists b = false)
    (hec : env.videoExists c = false) (hed : env.videoExists d = false)
    (hua : env.videoUrl a = some ua) (hub : env.videoUrl b = some ub)
    (huc : env.videoUrl c = some uc) (hud : env.videoUrl d = some ud)
    (hta : env.thumbExists a = true) (htb : env.thumbExists b = true)
    (htc : env.thumbExists c = true) (htd : env.thumbExists d = true)
    (hoa : env.videoOk a = false) (hob : env.videoOk b = false)
    (hoc : env.videoOk c = false) (hod : env.videoOk d = true) :
    process_user env [a, b, c, d] =
      { downloaded := [d], unavailable := [a, b, c], failed := [], consec := 0,
        anyDownloaded := true,
        requests := [⟨a, MediaKind.video⟩, ⟨b, MediaKind.video⟩,
          ⟨c, MediaKind.video⟩, ⟨d, MediaKind.video⟩],
        pauses := 1, batchSizes := [4] } := by
  simp [process_user, dlLoop, batchPrepare, runVideoResults, initDL,
    hea, heb, hec, hed, hua, hub, huc, hud, hta, htb, htc, htd,
    hoa, hob, hoc, hod]

/-- Concrete environment witnessing `c1_streak_flush`. -/
def dlEnvC1 : DLEnv :=
  { videoExists := fun _ => false
    thumbExists := fun _ => true
    videoUrl := fun s => some s
    thumbUrl := fun _ => none
    videoOk := fun s => s == "d" }

/-- The video task the batch loop would create for one pk: none when the video
file already exists or no video URL is stored. -/
def videoTask (env : DLEnv) (pk : String) : Option DLTask :=
  if env.videoExists pk then none
  else
    match env.videoUrl pk with
    | some _ => some ⟨pk, MediaKind.video⟩
    | none => none

/-- The thumbnail task the batch loop would create for one pk: none when the
thumbnail file already exists or no thumbnail URL is stored. -/
def thumbTask (env : DLEnv) (pk : String) : Option DLTask :=
  if env.thumbExists pk then none
  else
    match env.thumbUrl pk with
    | some _ => some ⟨pk, MediaKind.thumb⟩
    | none => none

/-- All tasks created for one pk, video before thumbnail. -/
def pkTasks (env : DLEnv) (pk : String) : List DLTask :=
  (videoTask env pk).toList ++ (thumbTask env pk).toList

/-- All tasks of one batch, in source order. -/
def batchTasks (env : DLEnv) : List String → List DLTask
  | [] => []
  | pk :: rest => pkTasks env pk ++ batchTasks env rest

theorem batchPrepare_fst (env : DLEnv) (batch : List String) (st : DLState) :
    (batchPrepare env batch st).1 =
      { st with downloaded := st.downloaded ++ batch.filter env.videoExists } := by
  induction batch generalizing st with
  | nil => simp [batchPrepare]
  | cons pk rest ih =>
    by_cases h : env.videoExists pk
    · simp [batchPrepare, h, ih, List.filter_cons]
    · cases hu : env.videoUrl pk <;>
        simp [batchPrepare, h, hu, ih, List.filter_cons]

theorem batchPrepare_snd (env : DLEnv) (batch : List String) (st : DLState) :
    (batchPrepare env batch st).2 = batchTasks env batch := by
  induction batch generalizing st with
  | nil => simp [batchPrepare, batchTasks]
  | cons pk rest ih =>
    by_cases hv : env.videoExists pk <;> by_cases hth : env.thumbExists pk <;>
      cases hu : env.videoUrl pk <;> cases htu : env.thumbUrl pk <;>
      simp [batchPrepare, batchTasks, pkTasks, videoTask, thumbTask,
        hv, hth, hu, htu, ih]

theorem videoTask_eq_some (env : DLEnv) (q : String) (t : DLTask)
    (h : videoTask env q = some t) :
    t = ⟨q, MediaKind.video⟩ ∧ env.videoExists q = false ∧ env.videoUrl q ≠ none := by
  unfold videoTask at h
  by_cases hv : env.videoExists q
  · simp [hv] at h
  · cases hu : env.videoUrl q <;> simp [hv, hu] at h
    exact ⟨h.symm, by simp [hv], by simp [hu]⟩

theorem thumbTask_kind (env : DLEnv) (q : String) (t : DLTask)
    (h : thumbTask env q = some t) : t.pk = q ∧ t.kind = MediaKind.thumb := by
  unfold thumbTask at h
  by_cases hth : env.thumbExists q
  · simp [hth] at h
  · cases htu : env.thumbUrl q <;> simp [hth, htu] at h
    simp [← h]

theorem batchTasks_video (env : DLEnv) (batch : List String) (t : DLTask)
    (ht : t ∈ batchTasks env batch) (hk : t.kind = MediaKind.video) :
    t.pk ∈ batch ∧ env.videoExists t.pk = false ∧ env.videoUrl t.pk ≠ none := by
  induction batch with
  | nil => cases ht
  | cons q rest ih =>
    rcases List.mem_append.1 ht with h | h
    · rcases List.mem_append.1 h with h1 | h2
      · obtain ⟨rfl, h2, h3⟩ :=
          videoTask_eq_some env q t (by simpa using h1)
        exact ⟨List.mem_cons_self _ _, h2, h3⟩
      · obtain ⟨_, hkind⟩ := thumbTask_kind env q t (by simpa using h2)
        rw [hk] at hkind
        cases hkind
    · obtain ⟨h1, h2, h3⟩ := ih h
      exact ⟨List.mem_cons_of_mem _ h1, h2, h3⟩

theorem batchTasks_length_le (env : DLEnv) (batch : List String) :
    (batchTasks env batch).length ≤ 2 * batch.length := by
  induction batch with
  | nil => simp [batchTasks]
  | cons q rest ih =>
    have h1 : (pkTasks env q).length ≤ 2 := by
      unfold pkTasks
      have hv : (videoTask env q).toList.length ≤ 1 := by
        cases videoTask env q <;> simp
      have ht : (thumbTask env q).toList.length ≤ 1 := by
        cases thumbTask env q <;> simp
      simpa using Nat.add_le_add hv ht
    simp only [batchTasks, List.length_append, List.length_cons]
    omega

theorem runVideoResults_frame : ∀ (l : List (String × Bool)) (st : DLState),
    (runVideoResults l st).requests = st.requests ∧
      (runVideoResults l st).batchSizes = st.batchSizes
  | [], _ => ⟨rfl, rfl⟩
  | (pk, true) :: rest, st => by
      rw [runVideoResults]
      simpa using runVideoResults_frame rest _
  | (pk, false) :: rest, st => by
      rw [runVideoResults]
      simp only [Bool.false_eq_true, if_false]
      split <;> exact runVideoResults_frame rest _

theorem runVideoResults_downloaded_mono (q : String) :
    ∀ (l : List (String × Bool)) (st : DLState),
      q ∈ st.downloaded → q ∈ (runVideoResults l st).downloaded
  | [], _, h => h
  | (pk, true) :: rest, st, h => by
      rw [runVideoResults]
      simp only [if_pos rfl]
      exact runVideoResults_downloaded_mono q rest _
        (by simp [List.mem_append]; exact Or.inl h)
  | (pk, false) :: rest, st, h => by
      rw [runVideoResults]
      simp only [Bool.false_eq_true, if_false]
      split <;> exact runVideoResults_downloaded_mono q rest _ h

theorem runVideoResults_untouched (q : String) :
    ∀ (l : List (String × Bool)) (st : DLState),
      (∀ b, (q, b) ∉ l) →
      q ∉ st.downloaded → q ∉ st.unavailable → q ∉ st.failed →
      q ∉ (runVideoResults l st).downloaded ∧
        q ∉ (runVideoResults l st).unavailable ∧
        q ∉ (runVideoResults l st).failed
  | [], st, _, hd, hu, hf => ⟨hd, hu, hf⟩
  | (pk, ok) :: rest, st, hl, hd, hu, hf => by
      have hne : q ≠ pk := by
        intro h
        exact hl ok (by simp [h])
      have hrest : ∀ b, (q, b) ∉ rest := by
        intro b hb
        exact hl b (List.mem_cons_of_mem _ hb)
      cases ok
      · rw [runVideoResults]
        simp only [Bool.false_eq_true, if_false]
        split
        · exact runVideoResults_untouched q rest _ hrest
            (by simpa using hd) (by simpa using hu)
            (by simp [List.mem_append]; exact ⟨hf, hne⟩)
        · exact runVideoResults_untouched q rest _ hrest
            (by simpa using hd) (by simpa using hu)
            (by simp [List.mem_append]; exact ⟨hf, hne⟩)
      · rw [runVideoResults]
        simp only [if_pos rfl]
        exact runVideoResults_untouched q rest _ hrest
          (by simp [List.mem_append]; exact ⟨hd, hne⟩)
          (by simp [List.mem_append]; exact ⟨hu, hf⟩) (by simp)

theorem dlLoop_downloaded_mono (env : DLEnv) (q : String) :
    ∀ (ids : List String) (st : DLState),
      q ∈ st.downloaded → q ∈ (dlLoop env ids st).downloaded := by
  intro ids st
  induction ids, st using dlLoop.induct env with
  | case1 st => intro h; simpa [dlLoop] using h
  | case2 pk rest st hcond ih =>
    intro h
    rw [dlLoop]
    have hcond' : (batchPrepare env ((pk :: rest).take 5) st).2.isEmpty = true := hcond
    simp only [hcond', if_true]
    apply ih
    show q ∈ (batchPrepare env ((pk :: rest).take 5) st).1.downloaded
    rw [batchPrepare_fst]
    simp [h]
  | case3 pk rest st hcond ih =>
    intro h
    rw [dlLoop]
    have hcond' : ¬(batchPrepare env ((pk :: rest).take 5) st).2.isEmpty = true := hcond
    simp only [hcond', if_false]
    apply ih
    apply runVideoResults_downloaded_mono
    show q ∈ (batchPrepare env ((pk :: rest).take 5) st).1.downloaded
    rw [batchPrepare_fst]
    simp [h]

theorem dlLoop_mem_downloaded (env : DLEnv) (q : String)
    (hv : env.videoExists q = true) :
    ∀ (ids : List String) (st : DLState),
      q ∈ ids ∨ q ∈ st.downloaded → q ∈ (dlLoop env ids st).downloaded := by
  intro ids st
  induction ids, st using dlLoop.induct env with
  | case1 st =>
    intro h
    rcases h with h | h
    · cases h
    · simpa [dlLoop] using h
  | case2 pk rest st hcond ih =>
    intro h
    rw [dlLoop]
    have hcond' : (batchPrepare env ((pk :: rest).take 5) st).2.isEmpty = true := hcond
    simp only [hcond', if_true]
    rcases h with h | h
    · rcases List.mem_append.1
        ((List.take_append_drop 5 (pk :: rest)) ▸ h) with htk | hdr
      · apply dlLoop_downloaded_mono
        rw [batchPrepare_fst]
        simp only [List.mem_append]
        exact Or.inr (List.mem_filter.2 ⟨htk, hv⟩)
      · exact ih (Or.inl hdr)
    · apply ih
      apply Or.inr
      show q ∈ (batchPrepare env ((pk :: rest).take 5) st).1.downloaded
      rw [batchPrepare_fst]
      simp [h]
  | case3 pk rest st hcond ih =>
    intro h
    rw [dlLoop]
    have hcond' : ¬(batchPrepare env ((pk :: rest).take 5) st).2.isEmpty = true := hcond
    simp only [hcond', if_false]
    rcases h with h | h
    · rcases List.mem_append.1
        ((List.take_append_drop 5 (pk :: rest)) ▸ h) with htk | hdr
      · apply dlLoop_downloaded_mono
        apply runVideoResults_downloaded_mono
        show q ∈ (batchPrepare env ((pk :: rest).take 5) st).1.downloaded
        rw [batchPrepare_fst]
        simp only [List.mem_append]
        exact Or.inr (List.mem_filter.2 ⟨htk, hv⟩)
      · exact ih (Or.inl hdr)
    · apply ih
      apply Or.inr
      apply runVideoResults_downloaded_mono
      show q ∈ (batchPrepare env ((pk :: rest).take 5) st).1.downloaded
      rw [batchPrepare_fst]
      simp [h]

theorem dlLoop_no_video_request (env : DLEnv) (q : String)
    (hv : env.videoExists q = true) :
    ∀ (ids : List String) (st : DLState),
      (⟨q, MediaKind.video⟩ : DLTask) ∉ st.requests →
      (⟨q, MediaKind.video⟩ : DLTask) ∉ (dlLoop env ids st).requests := by
  intro ids st
  induction ids, st using dlLoop.induct env with
  | case1 st => intro h; simpa [dlLoop] using h
  | case2 pk rest st hcond ih =>
    intro h
    rw [dlLoop]
    have hcond' : (batchPrepare env ((pk :: rest).take 5) st).2.isEmpty = true := hcond
    simp only [hcond', if_true]
    apply ih
    show (⟨q, MediaKind.video⟩ : DLTask) ∉
      (batchPrepare env ((pk :: rest).take 5) st).1.requests
    rw [batchPrepare_fst]
    simpa using h
  | case3 pk rest st hcond ih =>
    intro h
    rw [dlLoop]
    have hcond' : ¬(batchPrepare env ((pk :: rest).take 5) st).2.isEmpty = true := hcond
    simp only [hcond', if_false]
    apply ih
    show (⟨q, MediaKind.video⟩ : DLTask) ∉ (runVideoResults
      ((((batchPrepare env ((pk :: rest).take 5) st).2).filter
        (fun t => t.kind == MediaKind.video)).map (fun t => (t.pk, env.videoOk t.pk)))
      { (batchPrepare env ((pk :: rest).take 5) st).1 with
        requests := (batchPrepare env ((pk :: rest).take 5) st).1.requests ++
          (batchPrepare env ((pk :: rest).take 5) st).2
        batchSizes := (batchPrepare env ((pk :: rest).take 5) st).1.batchSizes ++
          [(batchPrepare env ((pk :: rest).take 5) st).2.length] }).requests
    rw [(runVideoResults_frame _ _).1]
    simp only [batchPrepare_snd, List.mem_append, not_or]
    constructor
    · rw [batchPrepare_fst]
      simpa using h
    · intro hmem
      obtain ⟨_, hfalse, _⟩ := batchTasks_video env _ _ hmem rfl
      rw [hv] at hfalse
      cases hfalse

theorem mem_vres_video (env : DLEnv) (tasks : List DLTask) (q : String) (b : Bool)
    (h : (q, b) ∈ (tasks.filter (fun t => t.kind == MediaKind.video)).map
      (fun t => (t.pk, env.videoOk t.pk))) :
    ∃ t ∈ tasks, t.pk = q ∧ t.kind = MediaKind.video := by
  obtain ⟨t, ht, heq⟩ := List.mem_map.1 h
  obtain ⟨ht1, ht2⟩ := List.mem_filter.1 ht
  exact ⟨t, ht1, by simpa using congrArg Prod.fst heq, by simpa using ht2⟩

theorem dlLoop_untouched (env : DLEnv) (q : String)
    (hv : env.videoExists q = false) (hu : env.videoUrl q = none) :
    ∀ (ids : List String) (st : DLState),
      q ∉ st.downloaded → q ∉ st.unavailable → q ∉ st.failed →
      (⟨q, MediaKind.video⟩ : DLTask) ∉ st.requests →
      q ∉ (dlLoop env ids st).downloaded ∧
        q ∉ (dlLoop env ids st).unavailable ∧
        q ∉ (dlLoop env ids st).failed ∧
        (⟨q, MediaKind.video⟩ : DLTask) ∉ (dlLoop env ids st).requests := by
  intro ids st
  induction ids, st using dlLoop.induct env with
  | case1 st =>
    intro h1 h2 h3 h4
    exact ⟨by simpa [dlLoop] using h1, by simpa [dlLoop] using h2,
      by simpa [dlLoop] using h3, by simpa [dlLoop] using h4⟩
  | case2 pk rest st hcond ih =>
    intro h1 h2 h3 h4
    rw [dlLoop]
    have hcond' : (batchPrepare env ((pk :: rest).take 5) st).2.isEmpty = true := hcond
    simp only [hcond', if_true]
    apply ih
    · show q ∉ (batchPrepare env ((pk :: rest).take 5) st).1.downloaded
      rw [batchPrepare_fst]
      simp only [List.mem_append]
      rintro (h | h)
      · exact h1 h
      · exact absurd ((List.mem_filter.1 h).2) (by simp [hv])
    · show q ∉ (batchPrepare env ((pk :: rest).take 5) st).1.unavailable
      rw [batchPrepare_fst]; simpa using h2
    · show q ∉ (batchPrepare env ((pk :: rest).take 5) st).1.failed
      rw [batchPrepare_fst]; simpa using h3
    · show (⟨q, MediaKind.video⟩ : DLTask) ∉
        (batchPrepare env ((pk :: rest).take 5) st).1.requests
      rw [batchPrepare_fst]; simpa using h4
  | case3 pk rest st hcond ih =>
    intro h1 h2 h3 h4
    rw [dlLoop]
    have hcond' : ¬(batchPrepare env ((pk :: rest).take 5) st).2.isEmpty = true := hcond
    simp only [hcond', if_false]
    have hnotvres : ∀ b, (q, b) ∉
        ((batchPrepare env ((pk :: rest).take 5) st).2.filter
          (fun t => t.kind == MediaKind.video)).map
            (fun t => (t.pk, env.videoOk t.pk)) := by
      intro b hb
      obtain ⟨t, ht, hpk, hkind⟩ := mem_vres_video env _ q b hb
      rw [batchPrepare_snd] at ht
      obtain ⟨_, _, hurl⟩ := batchTasks_video env _ _ ht hkind
      rw [hpk, hu] at hurl
      exact hurl rfl
    have hd' : q ∉ (batchPrepare env ((pk :: rest).take 5) st).1.downloaded := by
      rw [batchPrepare_fst]
      simp only [List.mem_append]
      rintro (h | h)
      · exact h1 h
      · exact absurd ((List.mem_filter.1 h).2) (by simp [hv])
    have hu' : q ∉ (batchPrepare env ((pk :: rest).take 5) st).1.unavailable := by
      rw [batchPrepare_fst]; simpa using h2
    have hf' : q ∉ (batchPrepare env ((pk :: rest).take 5) st).1.failed := by
      rw [batchPrepare_fst]; simpa using h3
    obtain ⟨g1, g2, g3⟩ := runVideoResults_untouched q _
      ({ (batchPrepare env ((pk :: rest).take 5) st).1 with
        requests := (batchPrepare env ((pk :: rest).take 5) st).1.requests ++
          (batchPrepare env ((pk :: rest).take 5) st).2
        batchSizes := (batchPrepare env ((pk :: rest).take 5) st).1.batchSizes ++
          [(batchPrepare env ((pk :: rest).take 5) st).2.length] })
      hnotvres hd' hu' hf'
    apply ih g1 g2 g3
    rw [(runVideoResults_frame _ _).1]
    show (⟨q, MediaKind.video⟩ : DLTask) ∉
      (batchPrepare env ((pk :: rest).take 5) st).1.requests ++
        (batchPrepare env ((pk :: rest).take 5) st).2
    simp only [batchPrepare_snd, List.mem_append, not_or]
    constructor
    · rw [batchPrepare_fst]
      simpa using h4
    · intro h
      obtain ⟨_, _, hurl⟩ := batchTasks_video env _ _ h rfl
      rw [hu] at hurl
      exact hurl rfl

theorem dlLoop_all_skipped (env : DLEnv) :
    ∀ (ids : List String) (st : DLState),
      (∀ r ∈ ids, env.videoExists r = false ∧ env.videoUrl r = none) →
      (dlLoop env ids st).downloaded = st.downloaded ∧
        (dlLoop env ids st).unavailable = st.unavailable ∧
        (dlLoop env ids st).failed = st.failed ∧
        (dlLoop env ids st).consec = st.consec := by
  intro ids st
  induction ids, st using dlLoop.induct env with
  | case1 st => intro _; simp [dlLoop]
  | case2 pk rest st hcond ih =>
    intro hall
    rw [dlLoop]
    have hcond' : (batchPrepare env ((pk :: rest).take 5) st).2.isEmpty = true := hcond
    simp only [hcond', if_true]
    have hdrop : ∀ r ∈ (pk :: rest).drop 5,
        env.videoExists r = false ∧ env.videoUrl r = none :=
      fun r hr => hall r ((List.drop_sublist 5 _).mem hr)
    have hfilter : ((pk :: rest).take 5).filter env.videoExists = [] := by
      rw [List.filter_eq_nil_iff]
      intro r hr
      simp [(hall r ((List.take_sublist 5 _).mem hr)).1]
    obtain ⟨g1, g2, g3, g4⟩ := ih hdrop
    rw [batchPrepare_fst] at g1 g2 g3 g4 ⊢
    simp only [hfilter, List.append_nil] at g1 g2 g3 g4 ⊢
    exact ⟨g1, g2, g3, g4⟩
  | case3 pk rest st hcond ih =>
    intro hall
    rw [dlLoop]
    have hcond' : ¬(batchPrepare env ((pk :: rest).take 5) st).2.isEmpty = true := hcond
    simp only [hcond', if_false]
    have hdrop : ∀ r ∈ (pk :: rest).drop 5,
        env.videoExists r = false ∧ env.videoUrl r = none :=
      fun r hr => hall r ((List.drop_sublist 5 _).mem hr)
    have hfilter : ((pk :: rest).take 5).filter env.videoExists = [] := by
      rw [List.filter_eq_nil_iff]
      intro r hr
      simp [(hall r ((List.take_sublist 5 _).mem hr)).1]
    have hvres : ((batchPrepare env ((pk :: rest).take 5) st).2.filter
        (fun t => t.kind == MediaKind.video)) = [] := by
      rw [List.filter_eq_nil_iff]
      intro t ht
      rw [batchPrepare_snd] at ht
      intro hkind
      obtain ⟨hmem, _, hurl⟩ := batchTasks_video env _ _ ht (by simpa using hkind)
      exact hurl (hall t.pk ((List.take_sublist 5 _).mem hmem)).2
    obtain ⟨g1, g2, g3, g4⟩ := ih hdrop
    rw [hvres] at g1 g2 g3 g4
    simp only [List.map_nil, runVideoResults] at g1 g2 g3 g4
    rw [batchPrepare_fst] at g1 g2 g3 g4
    rw [hvres]
    simp only [List.map_nil, runVideoResults]
    rw [batchPrepare_fst]
    simp only [hfilter, List.append_nil] at g1 g2 g3 g4 ⊢
    exact ⟨g1, g2, g3, g4⟩

theorem dlLoop_batchSizes_le (env : DLEnv) :
    ∀ (ids : List String) (st : DLState),
      (∀ n ∈ st.batchSizes, n ≤ 10) →
      ∀ n ∈ (dlLoop env ids st).batchSizes, n ≤ 10 := by
  intro ids st
  induction ids, st using dlLoop.induct env with
  | case1 st => intro h; simpa [dlLoop] using h
  | case2 pk rest st hcond ih =>
    intro h
    rw [dlLoop]
    have hcond' : (batchPrepare env ((pk :: rest).take 5) st).2.isEmpty = true := hcond
    simp only [hcond', if_true]
    apply ih
    show ∀ n ∈ (batchPrepare env ((pk :: rest).take 5) st).1.batchSizes, n ≤ 10
    rw [batchPrepare_fst]
    simpa using h
  | case3 pk rest st hcond ih =>
    intro h
    rw [dlLoop]
    have hcond' : ¬(batchPrepare env ((pk :: rest).take 5) st).2.isEmpty = true := hcond
    simp only [hcond', if_false]
    apply ih
    show ∀ n ∈ (runVideoResults
      ((((batchPrepare env ((pk :: rest).take 5) st).2).filter
        (fun t => t.kind == MediaKind.video)).map (fun t => (t.pk, env.videoOk t.pk)))
      { (batchPrepare env ((pk :: rest).take 5) st).1 with
        requests := (batchPrepare env ((pk :: rest).take 5) st).1.requests ++
          (batchPrepare env ((pk :: rest).take 5) st).2
        batchSizes := (batchPrepare env ((pk :: rest).take 5) st).1.batchSizes ++
          [(batchPrepare env ((pk :: rest).take 5) st).2.length] }).batchSizes, n ≤ 10
    rw [(runVideoResults_frame _ _).2]
    intro n hn
    simp only [List.mem_append, List.mem_singleton] at hn
    rcases hn with hn | hn
    · rw [batchPrepare_fst] at hn
      exact h n hn
    · subst hn
      calc (batchPrepare env ((pk :: rest).take 5) st).2.length
          = (batchTasks env ((pk :: rest).take 5)).length := by
            rw [batchPrepare_snd]
        _ ≤ 2 * ((pk :: rest).take 5).length := batchTasks_length_le env _
        _ ≤ 2 * 5 := by
            have := List.length_take_le 5 (pk :: rest)
            omega

/-- C7 counterexample environment: for every pk the video file is already on
disk, the thumbnail file is absent and a thumbnail URL is stored. -/
def dlEnvC7 : DLEnv :=
  { videoExists := fun _ => true
    thumbExists := fun _ => false
    videoUrl := fun _ => none
    thumbUrl := fun _ => some "t"
    videoOk := fun _ => true }

/-- C7 counterexample: with the video file of pk `x` already present,
`process_user` still issues a (thumbnail) network request for `x`, so the claim
that no network request at all is issued for `x` fails; `x` is nevertheless
marked downloaded. -/
theorem c7_local_file_counterexample :
    dlEnvC7.videoExists "x" = true ∧
    (process_user dlEnvC7 ["x"]).downloaded = ["x"] ∧
    (process_user dlEnvC7 ["x"]).requests = [⟨"x", MediaKind.thumb⟩] := by
  refine ⟨rfl, ?_, ?_⟩ <;>
    simp [process_user, dlLoop, batchPrepare, runVideoResults, initDL, dlEnvC7]

/-- C7 (amended): a pk whose video file is already on local storage is marked
downloaded and no VIDEO network request is ever issued for it (a thumbnail
request may still be issued when the thumbnail file is absent). -/
theorem c7_amended_no_video_request (env : DLEnv) (ids : List String) (pk : String)
    (hv : env.videoExists pk = true) (hmem : pk ∈ ids) :
    pk ∈ (process_user env ids).downloaded ∧
      (⟨pk, MediaKind.video⟩ : DLTask) ∉ (process_user env ids).requests :=
  ⟨dlLoop_mem_downloaded env pk hv ids initDL (Or.inl hmem),
    dlLoop_no_video_request env pk hv ids initDL (by simp [initDL])⟩

/-- Witness for the amended C7 at a concrete input. -/
theorem c7_amended_witness :
    dlEnvC7.videoExists "x" = true ∧ "x" ∈ (["x"] : List String) ∧
    ("x" ∈ (process_user dlEnvC7 ["x"]).downloaded ∧
      (⟨"x", MediaKind.video⟩ : DLTask) ∉ (process_user dlEnvC7 ["x"]).requests) :=
  ⟨rfl, by simp, c7_amended_no_video_request dlEnvC7 ["x"] "x" rfl (by simp)⟩

/-- C8 counterexample environment: every pk needs both its video and its
thumbnail, so each contributes two tasks. -/
def dlEnvC8 : DLEnv :=
  { videoExists := fun _ => false
    thumbExists := fun _ => false
    videoUrl := fun s => some s
    thumbUrl := fun s => some s
    videoOk := fun _ => true }

/-- C8 counterexample: one batch of five ids puts ten transfers in flight at
once, refuting the claim that at most `max_concurrent` (5) transfers are in
flight simultaneously. -/
theorem c8_batch_counterexample :
    (process_user dlEnvC8 ["a", "b", "c", "d", "e"]).batchSizes = [10] ∧
      ¬(10 ≤ 5) := by
  constructor
  · simp [process_user, dlLoop, batchPrepare, runVideoResults, initDL, dlEnvC8]
  · decide

/-- C8 (amended): the work list is partitioned into batches of at most 5 IDS,
each id contributing up to two transfers (video and thumbnail), so every gather
holds at most 2 * 5 = 10 simultaneous transfers; all transfers of a batch are
awaited before the next batch starts. -/
theorem c8_amended_bound (env : DLEnv) (ids : List String) (n : Nat)
    (hn : n ∈ (process_user env ids).batchSizes) : n ≤ 2 * 5 :=
  dlLoop_batchSizes_le env ids initDL (by simp [initDL]) n hn

/-- Witness for the amended C8 at a concrete input. -/
theorem c8_amended_witness :
    10 ∈ (process_user dlEnvC8 ["a", "b", "c", "d", "e"]).batchSizes ∧
      10 ≤ 2 * 5 := by
  have hmem : 10 ∈ (process_user dlEnvC8 ["a", "b", "c", "d", "e"]).batchSizes := by
    simp [process_user, dlLoop, batchPrepare, runVideoResults, initDL, dlEnvC8]
  exact ⟨hmem, c8_amended_bound dlEnvC8 ["a", "b", "c", "d", "e"] 10 hmem⟩

/-- C10 counterexample environment: no video file and no stored video URL, but
the thumbnail is absent and has a stored URL. -/
def dlEnvC10 : DLEnv :=
  { videoExists := fun _ => false
    thumbExists := fun _ => false
    videoUrl := fun _ => none
    thumbUrl := fun _ => some "t"
    videoOk := fun _ => true }

/-- C10 counterexample: for a pending pk with no stored video URL,
`process_user` still issues a (thumbnail) network request for that pk, so the
claim that no network request is issued for it fails. -/
theorem c10_missing_url_counterexample :
    dlEnvC10.videoExists "x" = false ∧ dlEnvC10.videoUrl "x" = none ∧
    (process_user dlEnvC10 ["x"]).requests = [⟨"x", MediaKind.thumb⟩] := by
  refine ⟨rfl, rfl, ?_⟩
  simp [process_user, dlLoop, batchPrepare, runVideoResults, initDL, dlEnvC10]

/-- C10 (amended): a pending pk with no video file and no stored video URL gets
no VIDEO network request and is left fully untouched — never marked downloaded
or unavailable, never appended to the failure streak; and when every id of the
work list is in that situation, the run marks nothing and leaves the
consecutive-failure counter at 0 (a thumbnail request may still be issued). -/
theorem c10_amended_untouched (env : DLEnv) (ids : List String) (pk : String)
    (hv : env.videoExists pk = false) (hu : env.videoUrl pk = none) :
    (pk ∉ (process_user env ids).downloaded ∧
      pk ∉ (process_user env ids).unavailable ∧
      pk ∉ (process_user env ids).failed ∧
      (⟨pk, MediaKind.video⟩ : DLTask) ∉ (process_user env ids).requests) ∧
    ((∀ r ∈ ids, env.videoExists r = false ∧ env.videoUrl r = none) →
      (process_user env ids).downloaded = [] ∧
        (process_user env ids).unavailable = [] ∧
        (process_user env ids).consec = 0) := by
  obtain ⟨g1, g2, g3, g4⟩ := dlLoop_untouched env pk hv hu ids initDL
    (by simp [initDL]) (by simp [initDL]) (by simp [initDL]) (by simp [initDL])
  constructor
  · refine ⟨g1, ?_, g3, g4⟩
    show pk ∉ (dlLoop env ids initDL).unavailable ++ (dlLoop env ids initDL).failed
    simp only [List.mem_append]
    rintro (h | h)
    · exact g2 h
    · exact g3 h
  · intro hall
    obtain ⟨e1, e2, e3, e4⟩ := dlLoop_all_skipped env ids initDL hall
    refine ⟨by simpa [initDL] using e1, ?_, by simpa [initDL] using e4⟩
    show (dlLoop env ids initDL).unavailable ++ (dlLoop env ids initDL).failed = []
    rw [e2, e3]
    simp [initDL]

/-- Witness for the amended C10 at a concrete input. -/
theorem c10_amended_witness :
    dlEnvC10.videoExists "x" = false ∧ dlEnvC10.videoUrl "x" = none ∧
    (("x" ∉ (process_user dlEnvC10 ["x"]).downloaded ∧
      "x" ∉ (process_user dlEnvC10 ["x"]).unavailable ∧
      "x" ∉ (process_user dlEnvC10 ["x"]).failed ∧
      (⟨"x", MediaKind.video⟩ : DLTask) ∉ (process_user dlEnvC10 ["x"]).requests) ∧
    ((∀ r ∈ (["x"] : List String),
        dlEnvC10.videoExists r = false ∧ dlEnvC10.videoUrl r = none) →
      (process_user dlEnvC10 ["x"]).downloaded = [] ∧
        (process_user dlEnvC10 ["x"]).unavailable = [] ∧
        (process_user dlEnvC10 ["x"]).consec = 0)) :=
  ⟨rfl, rfl, c10_amended_untouched dlEnvC10 ["x"] "x" rfl rfl⟩

/-- Witness for C1 at a concrete four-id work list. -/
theorem c1_streak_flush_witness :
    process_user dlEnvC1 ["a", "b", "c", "d"] =
      { downloaded := ["d"], unavailable := ["a", "b", "c"], failed := [],
        consec := 0, anyDownloaded := true,
        requests := [⟨"a", MediaKind.video⟩, ⟨"b", MediaKind.video⟩,
          ⟨"c", MediaKind.video⟩, ⟨"d", MediaKind.video⟩],
        pauses := 1, batchSizes := [4] } :=
  c1_streak_flush dlEnvC1 "a" "b" "c" "d" "a" "b" "c" "d"
    rfl rfl rfl rfl rfl rfl rfl rfl rfl rfl rfl rfl rfl rfl rfl rfl

/-! ## Status store (`src/db_manager.py`) -/

/-- One row of the `reels` table (the columns touched by `save_reels` plus the
two outcome flags, which default to false on insert). -/
structure ReelRow where
  pk : String
  id : String
  user_pk : String
  code : String
  taken_at : Option Int
  comment_count : Option Int
  like_count : Option Int
  play_count : Option Int
  video_duration : Option Int
  thumbnail_url : Option String
  video_url : Option String
  caption : Option String
  downloaded : Bool
  video_unavailable : Bool
deriving DecidableEq, Repr

/-- One raw media object from the API (the `reel.get(...)` fields used by
`save_reels`; `caption` is `None` or a dict whose `text` may be missing). -/
structure Media where
  pk : String
  id : String
  code : String
  taken_at : Option Int
  comment_count : Option Int
  like_count : Option Int
  play_count : Option Int
  video_duration : Option Int
  thumbnail_url : Option String
  video_url : Option String
  caption : Option (Option String)
deriving DecidableEq, Repr

/-- The tuple `save_reels` builds for `executemany` from one media dict. -/
def mediaToRow (m : Media) (user_pk : String) : ReelRow :=
  { pk := m.pk, id := m.id, user_pk := user_pk, code := m.code,
    taken_at := m.taken_at, comment_count := m.comment_count,
    like_count := m.like_count, play_count := m.play_count,
    video_duration := m.video_duration, thumbnail_url := m.thumbnail_url,
    video_url := m.video_url, caption := m.caption.join,
    downloaded := false, video_unavailable := false }

/-- The `ON CONFLICT(pk) DO UPDATE SET` clause of `save_reels`: only the six
mutable engagement columns are taken from the excluded row. -/
def mergeRow (old incoming : ReelRow) : ReelRow :=
  { old with
    comment_count := incoming.comment_count
    like_count := incoming.like_count
    play_count := incoming.play_count
    thumbnail_url := incoming.thumbnail_url
    video_url := incoming.video_url
    caption := incoming.caption }

/-- Insert one row, or update the conflicting row (same `pk`) per `mergeRow`. -/
def upsertReel (rows : List ReelRow) (r : ReelRow) : List ReelRow :=
  if rows.any (fun x => x.pk == r.pk) then
    rows.map (fun x => if x.pk == r.pk then mergeRow x r else x)
  else rows ++ [r]

/-- `save_reels(reels_data, user_pk)`: early return on an empty list, else
upsert every built row in order. -/
def save_reels (db : List ReelRow) (reels_data : List Media) (user_pk : String) :
    List ReelRow :=
  if reels_data.isEmpty then db
  else (reels_data.map (fun m => mediaToRow m user_pk)).foldl upsertReel db

/-- One user object from a following page (fields read by `save_following`). -/
structure FollowUser where
  pk : String
  username : Option String
  full_name : Option String
  profile_pic_url : Option String
deriving DecidableEq, Repr

/-- One row of the `following` table, keyed by `(user_pk, following_pk)`. -/
structure FollowRow where
  user_pk : String
  following_pk : String
  following_username : Option String
  following_full_name : Option String
  following_profile_pic_url : Option String
deriving DecidableEq, Repr

/-- The tuple `save_following` builds for one followed person. -/
def followToRow (user_pk : String) (p : FollowUser) : FollowRow :=
  { user_pk := user_pk, following_pk := p.pk, following_username := p.username,
    following_full_name := p.full_name,
    following_profile_pic_url := p.profile_pic_url }

/-- `INSERT OR IGNORE` under the `UNIQUE(user_pk, following_pk)` constraint. -/
def insertEdgeIgnore (rows : List FollowRow) (e : FollowRow) : List FollowRow :=
  if rows.any (fun x => x.user_pk == e.user_pk && x.following_pk == e.following_pk)
  then rows
  else rows ++ [e]

/-- `save_following(following_data, user_pk)`: early return on an empty list,
else insert-or-ignore every built row in order. -/
def save_following (db : List FollowRow) (following_data : List FollowUser)
    (user_pk : String) : List FollowRow :=
  if following_data.isEmpty then db
  else (following_data.map (followToRow user_pk)).foldl insertEdgeIgnore db

/-- The unique key of a follow edge. -/
def edgeKey (e : FollowRow) : String × String := (e.user_pk, e.following_pk)

/-- One row of `instagram_accounts` (the columns the modelled flows touch). -/
structure AccountRow where
  username : String
  insta_id : Option String
  follower_count : Option Int
  following_count : Option Int
  full_name : Option String
  url : Option String
  profile_pic_url : Option String
  biography : Option String
  reels_list : Option String
  reels_selected_list : Option (List String)
  all_reels_fetched_hiker : Bool
  all_following_fetched_hiker : Bool
deriving DecidableEq, Repr

/-- The optional keyword arguments of `update_account_fields`: a `some` value
is written, a `none` leaves the column untouched. -/
structure AccountUpdates where
  follower_count : Option Int := none
  following_count : Option Int := none
  reels_list : Option String := none
  reels_selected_list : Option (List String) := none
  insta_id : Option String := none
  all_reels_fetched_hiker : Option Bool := none
  all_following_fetched_hiker : Option Bool := none
deriving DecidableEq, Repr

/-- Apply the provided fields of an update to one account row. -/
def applyUpdates (u : AccountUpdates) (a : AccountRow) : AccountRow :=
  { a with
    follower_count :=
      match u.follower_count with
      | some v => some v
      | none => a.follower_count
    following_count :=
      match u.following_count with
      | some v => some v
      | none => a.following_count
    reels_list :=
      match u.reels_list with
      | some v => some v
      | none => a.reels_list
    reels_selected_list :=
      match u.reels_selected_list with
      | some v => some v
      | none => a.reels_selected_list
    insta_id :=
      match u.insta_id with
      | some v => some v
      | none => a.insta_id
    all_reels_fetched_hiker :=
      match u.all_reels_fetched_hiker with
      | some v => v
      | none => a.all_reels_fetched_hiker
    all_following_fetched_hiker :=
      match u.all_following_fetched_hiker with
      | some v => v
      | none => a.all_following_fetched_hiker }

/-- `update_account_fields`: `UPDATE instagram_accounts SET ... WHERE
username = ?` (a no-op when no row has that username). -/
def update_account_fields (db : List AccountRow) (username : String)
    (u : AccountUpdates) : List AccountRow :=
  db.map (fun a => if a.username == username then applyUpdates u a else a)

/-- The `ON CONFLICT(username) DO UPDATE SET` clause of `upsert_account`: all
listed columns are overwritten from the excluded row (columns not passed by the
account processor, such as `reels_selected_list`, become NULL; the completion
flags are not in the column list and keep their values). -/
def profOverwrite (insta_id : String) (follower_count following_count : Int)
    (full_name url profile_pic_url biography : Option String)
    (a : AccountRow) : AccountRow :=
  { a with
    insta_id := some insta_id
    follower_count := some follower_count
    following_count := some following_count
    full_name := full_name
    url := url
    profile_pic_url := profile_pic_url
    biography := biography
    reels_list := none
    reels_selected_list := none }

/-- The row inserted by `upsert_account` for a new username (completion flags
default to 0). -/
def newAccountRow (username insta_id : String)
    (follower_count following_count : Int)
    (full_name url profile_pic_url biography : Option String) : AccountRow :=
  { username := username, insta_id := some insta_id,
    follower_count := some follower_count,
    following_count := some following_count, full_name := full_name,
    url := url, profile_pic_url := profile_pic_url, biography := biography,
    reels_list := none, reels_selected_list := none,
    all_reels_fetched_hiker := false, all_following_fetched_hiker := false }

/-- `upsert_account` as called by the account processor: insert by username or
overwrite the listed columns from the excluded row. -/
def upsert_account (db : List AccountRow) (username : String) (insta_id : String)
    (follower_count following_count : Int)
    (full_name url profile_pic_url biography : Option String) : List AccountRow :=
  if db.any (fun a => a.username == username) then
    db.map (fun a =>
      if a.username == username then
        profOverwrite insta_id follower_count following_count full_name url
          profile_pic_url biography a
      else a)
  else
    db ++ [newAccountRow username insta_id follower_count following_count
      full_name url profile_pic_url biography]

/-- Sort key of `ORDER BY CAST(play_count AS INTEGER) DESC`: SQL NULL sorts
last under DESC, i.e. below every integer. -/
def pcKey (r : ReelRow) : WithBot Int :=
  match r.play_count with
  | none => ⊥
  | some v => (v : WithBot Int)

/-- Descending play-count order on reel rows. -/
def playDescRel : ReelRow → ReelRow → Prop := fun a b => pcKey b ≤ pcKey a

instance : DecidableRel playDescRel :=
  fun a b => (inferInstance : Decidable (pcKey b ≤ pcKey a))

instance : IsTotal ReelRow playDescRel :=
  ⟨fun a b => le_total (pcKey b) (pcKey a)⟩

instance : IsTrans ReelRow playDescRel :=
  ⟨fun _ _ _ hab hbc => le_trans hbc hab⟩

/-- `get_top_reels(user_pk, limit)`: the pks of the user's rows ordered by play
count descending, truncated to `limit`. -/
def get_top_reels (db : List ReelRow) (user_pk : String) (limit : Nat) :
    List String :=
  (((db.filter (fun r => r.user_pk == user_pk)).insertionSort
    playDescRel).map (fun r => r.pk)).take limit

/-! ## C9: the reel upsert touches only engagement columns on conflict -/

/-- The identity and ownership columns of a reel row: primary key, secondary
id, owner, code, taken-at timestamp. -/
def identFields (r : ReelRow) : String × String × String × String × Option Int :=
  (r.pk, r.id, r.user_pk, r.code, r.taken_at)

theorem identFields_mergeRow (x r : ReelRow) :
    identFields (mergeRow x r) = identFields x := rfl

theorem length_le_upsertReel (db : List ReelRow) (r : ReelRow) :
    db.length ≤ (upsertReel db r).length := by
  unfold upsertReel
  split
  · simp
  · simp

theorem upsertReel_frame (db : List ReelRow) (r : ReelRow) (i : Nat)
    (h : i < db.length) :
    ((upsertReel db r)[i]?).map identFields = (db[i]?).map identFields := by
  unfold upsertReel
  split
  · rw [List.getElem?_map, List.getElem?_eq_getElem h]
    by_cases hx : db[i].pk = r.pk <;>
      simp [beq_iff_eq, hx, identFields_mergeRow]
  · rw [List.getElem?_append_left h]

theorem foldl_upsertReel_frame :
    ∀ (rows : List ReelRow) (db : List ReelRow) (i : Nat), i < db.length →
      ((rows.foldl upsertReel db)[i]?).map identFields = (db[i]?).map identFields
  | [], db, i, _ => rfl
  | r :: rows, db, i, h => by
      rw [List.foldl_cons]
      rw [foldl_upsertReel_frame rows (upsertReel db r) i
        (lt_of_lt_of_le h (length_le_upsertReel db r))]
      exact upsertReel_frame db r i h

/-- C9: upserting a batch of posts leaves the identity and ownership fields
(primary key, secondary id, owner id, code, taken-at) of every pre-existing
row unchanged; on conflict only the mutable engagement fields are rewritten. -/
theorem c9_upsert_preserves_identity (db : List ReelRow) (reels_data : List Media)
    (user_pk : String) (i : Nat) (h : i < db.length) :
    ((save_reels db reels_data user_pk)[i]?).map identFields =
      (db[i]?).map identFields := by
  unfold save_reels
  split
  · rfl
  · exact foldl_upsertReel_frame _ db i h

/-- A pre-existing reel row for the C9 witness. -/
def reelRowC9 : ReelRow :=
  { pk := "p1", id := "id1", user_pk := "u1", code := "c1", taken_at := some 5,
    comment_count := some 1, like_count := some 2, play_count := some 3,
    video_duration := some 9, thumbnail_url := some "t", video_url := some "v",
    caption := some "cap", downloaded := false, video_unavailable := false }

/-- An incoming media object with the same pk but new engagement numbers. -/
def mediaC9 : Media :=
  { pk := "p1", id := "other", code := "other", taken_at := some 6,
    comment_count := some 10, like_count := some 20, play_count := some 30,
    video_duration := some 9, thumbnail_url := some "t2", video_url := some "v2",
    caption := some (some "cap2") }

/-- Witness for C9 at a concrete conflicting upsert. -/
theorem c9_upsert_preserves_identity_witness :
    0 < [reelRowC9].length ∧
      ((save_reels [reelRowC9] [mediaC9] "u1")[0]?).map identFields =
        (([reelRowC9] : List ReelRow)[0]?).map identFields :=
  ⟨by decide, c9_upsert_preserves_identity [reelRowC9] [mediaC9] "u1" 0 (by decide)⟩

/-! ## C3: a second identical run of the persistence operations is a no-op -/

theorem pk_if_merge (r x : ReelRow) :
    (if x.pk == r.pk then mergeRow x r else x).pk = x.pk := by
  by_cases h : x.pk == r.pk <;> simp [h, mergeRow]

theorem any_pk_iff (db : List ReelRow) (p : String) :
    (db.any (fun x => x.pk == p)) = true ↔ p ∈ db.map (fun x => x.pk) := by
  rw [List.any_eq_true]
  constructor
  · rintro ⟨x, hx, hb⟩
    exact List.mem_map.2 ⟨x, hx, beq_iff_eq.1 hb⟩
  · intro hm
    obtain ⟨x, hx, hpk⟩ := List.mem_map.1 hm
    exact ⟨x, hx, beq_iff_eq.2 hpk⟩

theorem pks_upsertReel (db : List ReelRow) (r : ReelRow) :
    (upsertReel db r).map (fun x => x.pk) =
      if r.pk ∈ db.map (fun x => x.pk) then db.map (fun x => x.pk)
      else db.map (fun x => x.pk) ++ [r.pk] := by
  unfold upsertReel
  by_cases hc : db.any (fun x => x.pk == r.pk)
  · rw [if_pos hc, if_pos ((any_pk_iff db r.pk).1 hc), List.map_map]
    exact List.map_congr_left (fun x _ => pk_if_merge r x)
  · rw [if_neg hc, if_neg (fun hm => hc ((any_pk_iff db r.pk).2 hm))]
    simp

theorem pks_upsert_mono (db : List ReelRow) (r : ReelRow) (q : String)
    (h : q ∈ db.map (fun x => x.pk)) :
    q ∈ (upsertReel db r).map (fun x => x.pk) := by
  rw [pks_upsertReel]
  split <;> simp [h]

theorem pk_mem_upsert (db : List ReelRow) (r : ReelRow) :
    r.pk ∈ (upsertReel db r).map (fun x => x.pk) := by
  rw [pks_upsertReel]
  split
  · assumption
  · simp

theorem foldl_pks_mono :
    ∀ (rows db : List ReelRow) (q : String), q ∈ db.map (fun x => x.pk) →
      q ∈ (rows.foldl upsertReel db).map (fun x => x.pk)
  | [], _, _, h => h
  | r :: rows, db, q, h => by
      rw [List.foldl_cons]
      exact foldl_pks_mono rows _ q (pks_upsert_mono db r q h)

theorem mem_pks_foldl :
    ∀ (rows db : List ReelRow) (r : ReelRow), r ∈ rows →
      r.pk ∈ (rows.foldl upsertReel db).map (fun x => x.pk)
  | [], _, _, h => absurd h (List.not_mem_nil _)
  | r0 :: rows, db, r, h => by
      rw [List.foldl_cons]
      rcases List.mem_cons.1 h with rfl | h
      · exact foldl_pks_mono rows _ r.pk (pk_mem_upsert db r)
      · exact mem_pks_foldl rows _ r h

theorem foldl_pks_of_present :
    ∀ (rows db : List ReelRow),
      (∀ r ∈ rows, r.pk ∈ db.map (fun x => x.pk)) →
      (rows.foldl upsertReel db).map (fun x => x.pk) = db.map (fun x => x.pk)
  | [], _, _ => rfl
  | r :: rows, db, hall => by
      rw [List.foldl_cons]
      have hpks : (upsertReel db r).map (fun x => x.pk) = db.map (fun x => x.pk) := by
        rw [pks_upsertReel, if_pos (hall r (List.mem_cons_self _ _))]
      rw [foldl_pks_of_present rows (upsertReel db r)
        (fun r2 h2 => by rw [hpks]; exact hall r2 (List.mem_cons_of_mem _ h2))]
      exact hpks

theorem nodup_pks_upsert (db : List ReelRow) (r : ReelRow)
    (h : (db.map (fun x => x.pk)).Nodup) :
    ((upsertReel db r).map (fun x => x.pk)).Nodup := by
  rw [pks_upsertReel]
  split
  · exact h
  · simp only [List.nodup_append, List.nodup_cons, List.not_mem_nil,
      not_false_iff, List.nodup_nil, true_and, and_true]
    constructor
    · exact h
    · intro a ha
      simp only [List.mem_singleton]
      intro heq
      subst heq
      exact absurd ha (by assumption)

theorem nodup_pks_foldl :
    ∀ (rows db : List ReelRow), (db.map (fun x => x.pk)).Nodup →
      ((rows.foldl upsertReel db).map (fun x => x.pk)).Nodup
  | [], _, h => h
  | r :: rows, db, h => by
      rw [List.foldl_cons]
      exact nodup_pks_foldl rows _ (nodup_pks_upsert db r h)

theorem any_edge_iff (db : List FollowRow) (e : FollowRow) :
    (db.any (fun x => x.user_pk == e.user_pk && x.following_pk == e.following_pk))
        = true ↔
      edgeKey e ∈ db.map edgeKey := by
  rw [List.any_eq_true]
  constructor
  · rintro ⟨x, hx, hb⟩
    rw [Bool.and_eq_true] at hb
    refine List.mem_map.2 ⟨x, hx, ?_⟩
    unfold edgeKey
    rw [beq_iff_eq.1 hb.1, beq_iff_eq.1 hb.2]
  · intro hm
    obtain ⟨x, hx, hkey⟩ := List.mem_map.1 hm
    have h1 : x.user_pk = e.user_pk := congrArg Prod.fst hkey
    have h2 : x.following_pk = e.following_pk := congrArg Prod.snd hkey
    refine ⟨x, hx, ?_⟩
    rw [Bool.and_eq_true]
    exact ⟨beq_iff_eq.2 h1, beq_iff_eq.2 h2⟩

theorem insertEdge_of_present (db : List FollowRow) (e : FollowRow)
    (h : edgeKey e ∈ db.map edgeKey) : insertEdgeIgnore db e = db := by
  unfold insertEdgeIgnore
  rw [if_pos ((any_edge_iff db e).2 h)]

theorem edgeKeys_insert (db : List FollowRow) (e : FollowRow) :
    (insertEdgeIgnore db e).map edgeKey =
      if edgeKey e ∈ db.map edgeKey then db.map edgeKey
      else db.map edgeKey ++ [edgeKey e] := by
  unfold insertEdgeIgnore
  by_cases hc : db.any
      (fun x => x.user_pk == e.user_pk && x.following_pk == e.following_pk)
  · rw [if_pos hc, if_pos ((any_edge_iff db e).1 hc)]
  · rw [if_neg hc, if_neg (fun hm => hc ((any_edge_iff db e).2 hm))]
    simp

theorem edgeKeys_insert_mono (db : List FollowRow) (e : FollowRow)
    (q : String × String) (h : q ∈ db.map edgeKey) :
    q ∈ (insertEdgeIgnore db e).map edgeKey := by
  rw [edgeKeys_insert]
  split <;> simp [h]

theorem edgeKey_mem_insert (db : List FollowRow) (e : FollowRow) :
    edgeKey e ∈ (insertEdgeIgnore db e).map edgeKey := by
  rw [edgeKeys_insert]
  split
  · assumption
  · simp

theorem foldl_edgeKeys_mono :
    ∀ (edges db : List FollowRow) (q : String × String), q ∈ db.map edgeKey →
      q ∈ (edges.foldl insertEdgeIgnore db).map edgeKey
  | [], _, _, h => h
  | e :: edges, db, q, h => by
      rw [List.foldl_cons]
      exact foldl_edgeKeys_mono edges _ q (edgeKeys_insert_mono db e q h)

theorem mem_edgeKeys_foldl :
    ∀ (edges db : List FollowRow) (e : FollowRow), e ∈ edges →
      edgeKey e ∈ (edges.foldl insertEdgeIgnore db).map edgeKey
  | [], _, _, h => absurd h (List.not_mem_nil _)
  | e0 :: edges, db, e, h => by
      rw [List.foldl_cons]
      rcases List.mem_cons.1 h with rfl | h
      · exact foldl_edgeKeys_mono edges _ (edgeKey e) (edgeKey_mem_insert db e)
      · exact mem_edgeKeys_foldl edges _ e h

theorem foldl_insertEdge_of_present :
    ∀ (edges db : List FollowRow),
      (∀ e ∈ edges, edgeKey e ∈ db.map edgeKey) →
      edges.foldl insertEdgeIgnore db = db
  | [], _, _ => rfl
  | e :: edges, db, hall => by
      rw [List.foldl_cons, insertEdge_of_present db e (hall e (List.mem_cons_self _ _))]
      exact foldl_insertEdge_of_present edges db
        (fun e2 h2 => hall e2 (List.mem_cons_of_mem _ h2))

theorem nodup_edgeKeys_insert (db : List FollowRow) (e : FollowRow)
    (h : (db.map edgeKey).Nodup) :
    ((insertEdgeIgnore db e).map edgeKey).Nodup := by
  rw [edgeKeys_insert]
  split
  · exact h
  · simp only [List.nodup_append, List.nodup_cons, List.not_mem_nil,
      not_false_iff, List.nodup_nil, true_and, and_true]
    constructor
    · exact h
    · intro a ha
      simp only [List.mem_singleton]
      intro heq
      subst heq
      exact absurd ha (by assumption)

theorem nodup_edgeKeys_foldl :
    ∀ (edges db : List FollowRow), (db.map edgeKey).Nodup →
      ((edges.foldl insertEdgeIgnore db).map edgeKey).Nodup
  | [], _, h => h
  | e :: edges, db, h => by
      rw [List.foldl_cons]
      exact nodup_edgeKeys_foldl edges _ (nodup_edgeKeys_insert db e h)

theorem applyUpdates_username (u : AccountUpdates) (a : AccountRow) :
    (applyUpdates u a).username = a.username := rfl

theorem applyUpdates_idem (u : AccountUpdates) (a : AccountRow) :
    applyUpdates u (applyUpdates u a) = applyUpdates u a := by
  obtain ⟨f1, f2, f3, f4, f5, f6, f7⟩ := u
  cases f1 <;> cases f2 <;> cases f3 <;> cases f4 <;> cases f5 <;>
    cases f6 <;> cases f7 <;> rfl

theorem update_account_fields_idem (db : List AccountRow) (u : String)
    (upd : AccountUpdates) :
    update_account_fields (update_account_fields db u upd) u upd =
      update_account_fields db u upd := by
  unfold update_account_fields
  rw [List.map_map]
  apply List.map_congr_left
  intro a _
  by_cases h : a.username == u
  · simp only [Function.comp_apply, h, if_pos, applyUpdates_username,
      applyUpdates_idem]
  · simp only [Function.comp_apply, h, if_neg]
    simp [h]

/-- C3: running the persistence layer twice on the same data is idempotent —
a second `save_reels` of the same batch adds no row, `save_reels` never
creates two rows with the same pk, a second `save_following` of the same batch
is the identity, `save_following` never creates two edges with the same
(follower, followed) key, and re-applying the same account-field update (such
as setting a completion flag true) changes nothing. -/
theorem c3_second_run_idempotent :
    (∀ (db : List ReelRow) (l : List Media) (upk : String),
      (save_reels (save_reels db l upk) l upk).length =
        (save_reels db l upk).length) ∧
    (∀ (db : List ReelRow) (l : List Media) (upk : String),
      (db.map (fun x => x.pk)).Nodup →
        ((save_reels db l upk).map (fun x => x.pk)).Nodup) ∧
    (∀ (db : List FollowRow) (l : List FollowUser) (upk : String),
      save_following (save_following db l upk) l upk = save_following db l upk) ∧
    (∀ (db : List FollowRow) (l : List FollowUser) (upk : String),
      (db.map edgeKey).Nodup → ((save_following db l upk).map edgeKey).Nodup) ∧
    (∀ (db : List AccountRow) (u : String) (upd : AccountUpdates),
      update_account_fields (update_account_fields db u upd) u upd =
        update_account_fields db u upd) := by
  refine ⟨?_, ?_, ?_, ?_, update_account_fields_idem⟩
  · intro db l upk
    unfold save_reels
    split
    · rfl
    · have hpresent : ∀ r ∈ l.map (fun m => mediaToRow m upk),
          r.pk ∈ ((l.map (fun m => mediaToRow m upk)).foldl upsertReel db).map
            (fun x => x.pk) :=
        fun r hr => mem_pks_foldl _ db r hr
      have := foldl_pks_of_present (l.map (fun m => mediaToRow m upk))
        ((l.map (fun m => mediaToRow m upk)).foldl upsertReel db) hpresent
      have hlen := congrArg List.length this
      simpa using hlen
  · intro db l upk hnd
    unfold save_reels
    split
    · exact hnd
    · exact nodup_pks_foldl _ db hnd
  · intro db l upk
    unfold save_following
    split
    · rfl
    · exact foldl_insertEdge_of_present _ _
        (fun e he => mem_edgeKeys_foldl _ db e he)
  · intro db l upk hnd
    unfold save_following
    split
    · exact hnd
    · exact nodup_edgeKeys_foldl _ db hnd

/-- A fresh media object for the C3 witness. -/
def mediaC3 : Media :=
  { pk := "p2", id := "i2", code := "c2", taken_at := none,
    comment_count := none, like_count := none, play_count := some 7,
    video_duration := none, thumbnail_url := none, video_url := some "v",
    caption := none }

/-- A followed user for the C3 witness. -/
def followUserC3 : FollowUser :=
  { pk := "f2", username := some "x", full_name := none, profile_pic_url := none }

/-- Witness for C3 at concrete single-element batches. -/
theorem c3_second_run_idempotent_witness :
    ((save_reels (save_reels [] [mediaC3] "u") [mediaC3] "u").length =
        (save_reels ([] : List ReelRow) [mediaC3] "u").length) ∧
    ((([] : List ReelRow).map (fun x => x.pk)).Nodup ∧
      ((save_reels [] [mediaC3] "u").map (fun x => x.pk)).Nodup) ∧
    (save_following (save_following [] [followUserC3] "u") [followUserC3] "u" =
        save_following ([] : List FollowRow) [followUserC3] "u") ∧
    ((([] : List FollowRow).map edgeKey).Nodup ∧
      ((save_following [] [followUserC3] "u").map edgeKey).Nodup) ∧
    (update_account_fields (update_account_fields [] "u"
        { all_reels_fetched_hiker := some true }) "u"
        { all_reels_fetched_hiker := some true } =
      update_account_fields ([] : List AccountRow) "u"
        { all_reels_fetched_hiker := some true }) :=
  ⟨c3_second_run_idempotent.1 [] [mediaC3] "u",
    ⟨by decide, c3_second_run_idempotent.2.1 [] [mediaC3] "u" (by decide)⟩,
    c3_second_run_idempotent.2.2.1 [] [followUserC3] "u",
    ⟨by decide, c3_second_run_idempotent.2.2.2.1 [] [followUserC3] "u" (by decide)⟩,
    c3_second_run_idempotent.2.2.2.2 [] "u" { all_reels_fetched_hiker := some true }⟩

/-! ## Account processor (`src/hiker.py`) -/

/-- Outcome of one attempt of an external call: a transport error (the
`httpx.RequestError` / generic exception paths) or a decoded response. -/
inductive CallResult (α : Type) where
  | netErr
  | ok (a : α)
deriving DecidableEq, Repr

/-- The `while attempts < max_retries` retry loop: try attempt `k`, on error
move to attempt `k+1`; `none` when all attempts error out. -/
def retryFrom {α : Type} (f : Nat → CallResult α) : Nat → Nat → Option α
  | _, 0 => none
  | k, n + 1 =>
      match f k with
      | .ok a => some a
      | .netErr => retryFrom f (k + 1) n

/-- Run a retry loop from attempt 0 with the given budget. -/
def retryCall {α : Type} (f : Nat → CallResult α) (maxRetries : Nat) : Option α :=
  retryFrom f 0 maxRetries

/-- The profile fields `process_user_with_hiker` reads from the user object. -/
structure Profile where
  pk : String
  username : String
  follower_count : Int
  following_count : Int
  full_name : String
  profile_pic_url : String
  biography : String
deriving DecidableEq, Repr

/-- A decoded profile response: the structured user-not-found indicator or a
user object. -/
inductive ProfileResp where
  | notFound
  | found (p : Profile)
deriving DecidableEq, Repr

/-- One item of a clips page; `media` is absent when the item has no `media`
key. -/
structure ClipItem where
  media : Option Media
deriving DecidableEq, Repr

/-- A decoded clips page: `malformed` covers a falsy response, a missing
`response` key or a missing `items` key; otherwise the item list and the
optional `next_page_id` (page tokens modelled as naturals). -/
inductive ClipsResp where
  | malformed
  | page (items : List ClipItem) (next : Option Nat)
deriving DecidableEq, Repr

/-- A decoded following page: `malformed` covers a falsy response or missing
`response`/`users` keys. -/
inductive FollowResp where
  | malformed
  | page (users : List FollowUser) (next : Option Nat)
deriving DecidableEq, Repr

/-- Environment of one account run: the response of each attempt of the
profile call, and of each attempt of each clips/following page call (keyed by
the page token; `none` is the first page). -/
structure HikerEnv where
  profileAttempts : Nat → CallResult ProfileResp
  clipsAttempts : Option Nat → Nat → CallResult ClipsResp
  followingAttempts : Option Nat → Nat → CallResult FollowResp

/-- The three tables of the SQLite database. -/
structure DB where
  accounts : List AccountRow
  reels : List ReelRow
  following : List FollowRow
deriving DecidableEq, Repr

/-- The update object `all_reels_fetched_hiker=True`. -/
def reelsFlagUpd : AccountUpdates := { all_reels_fetched_hiker := some true }

/-- The update object `all_following_fetched_hiker=True`. -/
def followingFlagUpd : AccountUpdates :=
  { all_following_fetched_hiker := some true }

/-- The update object setting both completion flags true. -/
def bothFlagsUpd : AccountUpdates :=
  { all_reels_fetched_hiker := some true
    all_following_fetched_hiker := some true }

/-- The update object `reels_selected_list=json.dumps(top_reels_pks)`. -/
def selectedUpd (top : List String) : AccountUpdates :=
  { reels_selected_list := some top }

/-- `update_account_fields(username, all_reels_fetched_hiker=True)`. -/
def setReelsFlag (db : DB) (username : String) : DB :=
  { db with accounts := update_account_fields db.accounts username reelsFlagUpd }

/-- `update_account_fields(username, all_following_fetched_hiker=True)`. -/
def setFollowingFlag (db : DB) (username : String) : DB :=
  { db with accounts :=
      update_account_fields db.accounts username followingFlagUpd }

/-- `update_account_fields(username, all_reels_fetched_hiker=True,
all_following_fetched_hiker=True)`. -/
def setBothFlags (db : DB) (username : String) : DB :=
  { db with accounts := update_account_fields db.accounts username bothFlagsUpd }

/-- Whether the whole process exited (`exit(1)`) or the function returned. -/
inductive HOutcome where
  | exited
  | finished
deriving DecidableEq, Repr

/-- Result of one account run: final database, process outcome, and the page
tokens of the clips and following fetches that were issued. -/
structure HikerRes where
  db : DB
  outcome : HOutcome
  clipsCalls : List (Option Nat)
  followingCalls : List (Option Nat)
deriving DecidableEq, Repr

/-- The first-page emptiness check of `process_user_with_hiker`: a falsy or
malformed response, or a first page whose `items` is falsy (empty). -/
def firstPageBad : ClipsResp → Bool
  | .malformed => true
  | .page items _ => items.isEmpty

/-- The subsequent-page pagination loop (`while len(reels) < reels_to_fetch
and next_page_id`), fuelled: retry exhaustion or a malformed page sets the
reels flag and breaks; a page without a next token extends and sets the flag;
otherwise extend and continue. Returns the accumulated items, the database and
the page tokens requested. -/
def clipsLoop (env : HikerEnv) (username : String) (target : Nat) :
    Nat → List ClipItem → Option Nat → DB → List (Option Nat) →
      List ClipItem × DB × List (Option Nat)
  | 0, reels, _, db, calls => (reels, db, calls)
  | fuel + 1, reels, next, db, calls =>
      if reels.length < target then
        match next with
        | none => (reels, db, calls)
        | some tok =>
          match retryCall (env.clipsAttempts (some tok)) 5 with
          | none => (reels, setReelsFlag db username, calls ++ [some tok])
          | some .malformed =>
              (reels, setReelsFlag db username, calls ++ [some tok])
          | some (.page items next2) =>
              match next2 with
              | none =>
                  (reels ++ items, setReelsFlag db username, calls ++ [some tok])
              | some tok2 =>
                  clipsLoop env username target fuel (reels ++ items)
                    (some tok2) db (calls ++ [some tok])
      else (reels, db, calls)

/-- The reel-fetching section: first page with retries (exhaustion skips the
user: early return, no flag writes), the zero-items terminal state (both flags
set, early return), else paginate, truncate to the target, persist, select the
top 5 and always set the reels flag. The boolean is true when the whole user
processing stops here. -/
def reelsSection (env : HikerEnv) (username pk : String) (target fuel : Nat)
    (db : DB) : DB × List (Option Nat) × Bool :=
  match retryCall (env.clipsAttempts none) 5 with
  | none => (db, [none], true)
  | some ClipsResp.malformed => (setBothFlags db username, [none], true)
  | some (ClipsResp.page items next) =>
    if items.isEmpty then (setBothFlags db username, [none], true)
    else
      let loopRes := clipsLoop env username target fuel items next db [none]
      let reels := loopRes.1.take target
      let db2 :=
        if reels.isEmpty then loopRes.2.1
        else
          let reels_data := reels.filterMap (fun it => it.media)
          let dbS := { loopRes.2.1 with
            reels := save_reels loopRes.2.1.reels reels_data pk }
          let top := get_top_reels dbS.reels pk 5
          if top.isEmpty then dbS
          else { dbS with accounts :=
              (update_account_fields dbS.accounts username (selectedUpd top)) }
      (setReelsFlag db2 username, loopRes.2.2, false)

/-- The following-fetching loop (`while True`), fuelled: retry exhaustion or a
malformed page sets the following flag and breaks; a nonempty page is saved;
no next token sets the flag and breaks. -/
def followLoop (env : HikerEnv) (username pk : String) :
    Nat → Option Nat → DB → List (Option Nat) → DB × List (Option Nat)
  | 0, _, db, calls => (db, calls)
  | fuel + 1, next, db, calls =>
      match retryCall (env.followingAttempts next) 5 with
      | none => (setFollowingFlag db username, calls ++ [next])
      | some FollowResp.malformed => (setFollowingFlag db username, calls ++ [next])
      | some (FollowResp.page users next2) =>
        let db2 :=
          if users.isEmpty then db
          else { db with following := save_following db.following users pk }
        match next2 with
        | none => (setFollowingFlag db2 username, calls ++ [next])
        | some tok => followLoop env username pk fuel (some tok) db2 (calls ++ [next])

/-- `process_user_with_hiker`: fetch the profile with retries (exhaustion
exits the process; a structured not-found sets both flags and returns), upsert
the profile, apply the skip policy, then run the reels section (whose early
returns skip the following section) and the following loop. -/
def process_user_with_hiker (env : HikerEnv) (username : String)
    (reels_to_fetch : Nat) (fetch_reels fetch_following : Bool)
    (max_following min_followers : Int) (fuel : Nat) (db : DB) : HikerRes :=
  match retryCall env.profileAttempts 5 with
  | none =>
      { db := db, outcome := HOutcome.exited, clipsCalls := [],
        followingCalls := [] }
  | some ProfileResp.notFound =>
      { db := setBothFlags db username, outcome := HOutcome.finished,
        clipsCalls := [], followingCalls := [] }
  | some (ProfileResp.found p) =>
      let db1 := { db with accounts :=
        (upsert_account db.accounts p.username p.pk
          p.follower_count p.following_count (some p.full_name)
          (some ("https://www.instagram.com/" ++ p.username ++ "/"))
          (some p.profile_pic_url) (some p.biography)) }
      if p.following_count > max_following ∨ p.follower_count < min_followers then
        { db := setBothFlags db1 username, outcome := HOutcome.finished,
          clipsCalls := [], followingCalls := [] }
      else
        let rs :=
          if fetch_reels then
            reelsSection env username p.pk reels_to_fetch fuel db1
          else (db1, [], false)
        if rs.2.2 then
          { db := rs.1, outcome := HOutcome.finished, clipsCalls := rs.2.1,
            followingCalls := [] }
        else
          let fs :=
            if fetch_following then followLoop env username p.pk fuel none rs.1 []
            else (rs.1, [])
          { db := fs.1, outcome := HOutcome.finished, clipsCalls := rs.2.1,
            followingCalls := fs.2 }

/-- `SELECT ... WHERE username = ?` on the accounts table. -/
def getAccount (db : DB) (username : String) : Option AccountRow :=
  db.accounts.find? (fun a => a.username == username)

/-- The stored reels completion flag of an account. -/
def reelsFlag (db : DB) (username : String) : Option Bool :=
  (getAccount db username).map (fun a => a.all_reels_fetched_hiker)

/-- The stored following completion flag of an account. -/
def followingFlagOf (db : DB) (username : String) : Option Bool :=
  (getAccount db username).map (fun a => a.all_following_fetched_hiker)

/-- The stored selected-reels list of an account. -/
def selectedOf (db : DB) (username : String) : Option (Option (List String)) :=
  (getAccount db username).map (fun a => a.reels_selected_list)

theorem find?_map_pred (l : List AccountRow) (u : String)
    (f : AccountRow → AccountRow) (hf : ∀ a, (f a).username = a.username) :
    (l.map (fun a => if a.username == u then f a else a)).find?
        (fun a => a.username == u) =
      (l.find? (fun a => a.username == u)).map f := by
  induction l with
  | nil => rfl
  | cons a rest ih =>
    simp only [List.map_cons]
    by_cases h : (a.username == u) = true
    · rw [if_pos h,
        @List.find?_cons_of_pos _ (fun x => x.username == u) (f a) _
          (by show ((f a).username == u) = true; rw [hf]; exact h),
        @List.find?_cons_of_pos _ (fun x => x.username == u) a _ h]
      rfl
    · rw [if_neg h,
        @List.find?_cons_of_neg _ (fun x => x.username == u) a _ h,
        @List.find?_cons_of_neg _ (fun x => x.username == u) a _ h, ih]

theorem find?_update_account (l : List AccountRow) (u : String)
    (upd : AccountUpdates) :
    (update_account_fields l u upd).find? (fun a => a.username == u) =
      (l.find? (fun a => a.username == u)).map (applyUpdates upd) :=
  find?_map_pred l u (applyUpdates upd) (applyUpdates_username upd)

theorem getAccount_setReelsFlag (db : DB) (u : String) :
    getAccount (setReelsFlag db u) u =
      (getAccount db u).map (applyUpdates reelsFlagUpd) :=
  find?_update_account db.accounts u reelsFlagUpd

theorem getAccount_setFollowingFlag (db : DB) (u : String) :
    getAccount (setFollowingFlag db u) u =
      (getAccount db u).map (applyUpdates followingFlagUpd) :=
  find?_update_account db.accounts u followingFlagUpd

theorem getAccount_setBothFlags (db : DB) (u : String) :
    getAccount (setBothFlags db u) u =
      (getAccount db u).map (applyUpdates bothFlagsUpd) :=
  find?_update_account db.accounts u bothFlagsUpd

theorem find?_upsert_account_of_found (l : List AccountRow) (u iid : String)
    (fc fgc : Int) (fn url pp bio : Option String) (a : AccountRow)
    (hacc : l.find? (fun x => x.username == u) = some a) :
    (upsert_account l u iid fc fgc fn url pp bio).find?
        (fun x => x.username == u) =
      some (profOverwrite iid fc fgc fn url pp bio a) := by
  unfold upsert_account
  rw [if_pos (List.any_eq_true.2 ⟨a, List.mem_of_find?_eq_some hacc,
    List.find?_some hacc⟩)]
  rw [find?_map_pred l u (profOverwrite iid fc fgc fn url pp bio)
    (fun x => rfl), hacc]
  rfl

/-- C5: an account whose profile reports a following-count above the maximum
or a follower-count below the minimum has both completion flags set true and
the processor returns with zero post-fetch and zero following-fetch calls. -/
theorem c5_skip_policy (env : HikerEnv) (username : String) (p : Profile)
    (db : DB) (a : AccountRow) (reels_to_fetch : Nat)
    (fetch_reels fetch_following : Bool) (max_following min_followers : Int)
    (fuel : Nat)
    (hprof : retryCall env.profileAttempts 5 = some (ProfileResp.found p))
    (hun : p.username = username)
    (hacc : getAccount db username = some a)
    (hpol : p.following_count > max_following ∨
      p.follower_count < min_followers) :
    (process_user_with_hiker env username reels_to_fetch fetch_reels
        fetch_following max_following min_followers fuel db).outcome =
        HOutcome.finished ∧
      (process_user_with_hiker env username reels_to_fetch fetch_reels
        fetch_following max_following min_followers fuel db).clipsCalls = [] ∧
      (process_user_with_hiker env username reels_to_fetch fetch_reels
        fetch_following max_following min_followers fuel db).followingCalls
        = [] ∧
      reelsFlag (process_user_with_hiker env username reels_to_fetch fetch_reels
        fetch_following max_following min_followers fuel db).db username
        = some true ∧
      followingFlagOf (process_user_with_hiker env username reels_to_fetch
        fetch_reels fetch_following max_following min_followers fuel db).db
        username = some true := by
  subst hun
  simp only [process_user_with_hiker, hprof]
  rw [if_pos hpol]
  have hup : getAccount { db with accounts :=
      (upsert_account db.accounts p.username p.pk p.follower_count
        p.following_count (some p.full_name)
        (some ("https://www.instagram.com/" ++ p.username ++ "/"))
        (some p.profile_pic_url) (some p.biography)) } p.username =
      some (profOverwrite p.pk p.follower_count p.following_count
        (some p.full_name)
        (some ("https://www.instagram.com/" ++ p.username ++ "/"))
        (some p.profile_pic_url) (some p.biography) a) :=
    find?_upsert_account_of_found db.accounts p.username p.pk p.follower_count
      p.following_count (some p.full_name)
      (some ("https://www.instagram.com/" ++ p.username ++ "/"))
      (some p.profile_pic_url) (some p.biography) a hacc
  refine ⟨rfl, rfl, rfl, ?_, ?_⟩
  · unfold reelsFlag
    rw [getAccount_setBothFlags, hup]
    rfl
  · unfold followingFlagOf
    rw [getAccount_setBothFlags, hup]
    rfl

/-- The C5 witness profile: 2000 followees with threshold 1001. -/
def profileC5 : Profile :=
  { pk := "pk5", username := "u5", follower_count := 50000,
    following_count := 2000, full_name := "", profile_pic_url := "",
    biography := "" }

/-- The C5 witness account row. -/
def accountC5 : AccountRow :=
  { username := "u5", insta_id := none, follower_count := none,
    following_count := none, full_name := none, url := none,
    profile_pic_url := none, biography := none, reels_list := none,
    reels_selected_list := none, all_reels_fetched_hiker := false,
    all_following_fetched_hiker := false }

/-- The C5 witness environment. -/
def envC5 : HikerEnv :=
  { profileAttempts := fun _ => CallResult.ok (ProfileResp.found profileC5)
    clipsAttempts := fun _ _ => CallResult.ok ClipsResp.malformed
    followingAttempts := fun _ _ => CallResult.ok FollowResp.malformed }

/-- The C5 witness database. -/
def dbC5 : DB := { accounts := [accountC5], reels := [], following := [] }

/-- Witness for C5 at a concrete account with following-count 2000 and
threshold 1001. -/
theorem c5_skip_policy_witness :
    (process_user_with_hiker envC5 "u5" 60 true true 1001 10000 0 dbC5).outcome =
        HOutcome.finished ∧
      (process_user_with_hiker envC5 "u5" 60 true true 1001 10000 0
        dbC5).clipsCalls = [] ∧
      (process_user_with_hiker envC5 "u5" 60 true true 1001 10000 0
        dbC5).followingCalls = [] ∧
      reelsFlag (process_user_with_hiker envC5 "u5" 60 true true 1001 10000 0
        dbC5).db "u5" = some true ∧
      followingFlagOf (process_user_with_hiker envC5 "u5" 60 true true 1001
        10000 0 dbC5).db "u5" = some true :=
  c5_skip_policy envC5 "u5" profileC5 dbC5 accountC5 60 true true 1001 10000 0
    rfl rfl rfl (Or.inl (by decide))

theorem reelsSection_bad (env : HikerEnv) (username pk : String)
    (target fuel : Nat) (db : DB) (resp : ClipsResp)
    (hp1 : retryCall (env.clipsAttempts none) 5 = some resp)
    (hbad : firstPageBad resp = true) :
    reelsSection env username pk target fuel db =
      (setBothFlags db username, [none], true) := by
  unfold reelsSection
  rw [hp1]
  cases resp with
  | malformed => rfl
  | page items next =>
    have hempty : items.isEmpty = true := hbad
    simp [hempty]

/-- C4: an account whose first post-list page is empty or malformed gets both
completion flags set true immediately and processing stops, with no following
request ever issued. -/
theorem c4_zero_items (env : HikerEnv) (username : String) (p : Profile)
    (db : DB) (a : AccountRow) (reels_to_fetch : Nat) (fetch_following : Bool)
    (max_following min_followers : Int) (fuel : Nat) (resp : ClipsResp)
    (hprof : retryCall env.profileAttempts 5 = some (ProfileResp.found p))
    (hun : p.username = username)
    (hacc : getAccount db username = some a)
    (hpol : ¬(p.following_count > max_following ∨
      p.follower_count < min_followers))
    (hp1 : retryCall (env.clipsAttempts none) 5 = some resp)
    (hbad : firstPageBad resp = true) :
    (process_user_with_hiker env username reels_to_fetch true fetch_following
        max_following min_followers fuel db).outcome = HOutcome.finished ∧
      (process_user_with_hiker env username reels_to_fetch true fetch_following
        max_following min_followers fuel db).followingCalls = [] ∧
      (process_user_with_hiker env username reels_to_fetch true fetch_following
        max_following min_followers fuel db).clipsCalls = [none] ∧
      reelsFlag (process_user_with_hiker env username reels_to_fetch true
        fetch_following max_following min_followers fuel db).db username
        = some true ∧
      followingFlagOf (process_user_with_hiker env username reels_to_fetch true
        fetch_following max_following min_followers fuel db).db username
        = some true := by
  subst hun
  simp only [process_user_with_hiker, hprof]
  rw [if_neg hpol]
  simp only [if_true, reelsSection_bad env p.username p.pk reels_to_fetch fuel _
    resp hp1 hbad]
  have hup : getAccount { db with accounts :=
      (upsert_account db.accounts p.username p.pk p.follower_count
        p.following_count (some p.full_name)
        (some ("https://www.instagram.com/" ++ p.username ++ "/"))
        (some p.profile_pic_url) (some p.biography)) } p.username =
      some (profOverwrite p.pk p.follower_count p.following_count
        (some p.full_name)
        (some ("https://www.instagram.com/" ++ p.username ++ "/"))
        (some p.profile_pic_url) (some p.biography) a) :=
    find?_upsert_account_of_found db.accounts p.username p.pk p.follower_count
      p.following_count (some p.full_name)
      (some ("https://www.instagram.com/" ++ p.username ++ "/"))
      (some p.profile_pic_url) (some p.biography) a hacc
  refine ⟨trivial, trivial, trivial, ?_, ?_⟩
  · unfold reelsFlag
    rw [getAccount_setBothFlags, hup]
    rfl
  · unfold followingFlagOf
    rw [getAccount_setBothFlags, hup]
    rfl

/-- The C4 witness profile (passes the skip policy). -/
def profileC4 : Profile :=
  { pk := "pk4", username := "u4", follower_count := 50000,
    following_count := 100, full_name := "", profile_pic_url := "",
    biography := "" }

/-- The C4 witness account row. -/
def accountC4 : AccountRow :=
  { username := "u4", insta_id := none, follower_count := none,
    following_count := none, full_name := none, url := none,
    profile_pic_url := none, biography := none, reels_list := none,
    reels_selected_list := none, all_reels_fetched_hiker := false,
    all_following_fetched_hiker := false }

/-- The C4 witness environment: the first clips page has zero items. -/
def envC4 : HikerEnv :=
  { profileAttempts := fun _ => CallResult.ok (ProfileResp.found profileC4)
    clipsAttempts := fun _ _ => CallResult.ok (ClipsResp.page [] none)
    followingAttempts := fun _ _ => CallResult.ok FollowResp.malformed }

/-- The C4 witness database. -/
def dbC4 : DB := { accounts := [accountC4], reels := [], following := [] }

/-- Witness for C4 at a concrete zero-item first page. -/
theorem c4_zero_items_witness :
    (process_user_with_hiker envC4 "u4" 60 true true 1001 10000 0
        dbC4).outcome = HOutcome.finished ∧
      (process_user_with_hiker envC4 "u4" 60 true true 1001 10000 0
        dbC4).followingCalls = [] ∧
      (process_user_with_hiker envC4 "u4" 60 true true 1001 10000 0
        dbC4).clipsCalls = [none] ∧
      reelsFlag (process_user_with_hiker envC4 "u4" 60 true true 1001 10000 0
        dbC4).db "u4" = some true ∧
      followingFlagOf (process_user_with_hiker envC4 "u4" 60 true true 1001
        10000 0 dbC4).db "u4" = some true :=
  c4_zero_items envC4 "u4" profileC4 dbC4 accountC4 60 true 1001 10000 0
    (ClipsResp.page [] none) rfl rfl rfl (by decide) rfl rfl

theorem reelsSection_exhausted (env : HikerEnv) (username pk : String)
    (target fuel : Nat) (db : DB)
    (h : retryCall (env.clipsAttempts none) 5 = none) :
    reelsSection env username pk target fuel db = (db, [none], true) := by
  unfold reelsSection
  rw [h]

theorem reelsFlag_setFollowingFlag (db : DB) (u : String) :
    reelsFlag (setFollowingFlag db u) u = reelsFlag db u := by
  unfold reelsFlag
  rw [getAccount_setFollowingFlag]
  cases getAccount db u <;> rfl

theorem followLoop_reelsFlag (env : HikerEnv) (u pk : String) :
    ∀ (fuel : Nat) (next : Option Nat) (db : DB) (calls : List (Option Nat)),
      reelsFlag (followLoop env u pk fuel next db calls).1 u = reelsFlag db u
  | 0, _, _, _ => rfl
  | fuel + 1, next, db, calls => by
      unfold followLoop
      cases hr : retryCall (env.followingAttempts next) 5 with
      | none => exact reelsFlag_setFollowingFlag db u
      | some resp =>
        cases resp with
        | malformed => exact reelsFlag_setFollowingFlag db u
        | page users next2 =>
          have hdb2 : reelsFlag (if users.isEmpty then db
              else { db with following := save_following db.following users pk })
              u = reelsFlag db u := by
            split <;> rfl
          cases next2 with
          | none =>
            simp only []
            rw [reelsFlag_setFollowingFlag]
            exact hdb2
          | some tok =>
            simp only []
            rw [followLoop_reelsFlag env u pk fuel (some tok) _ (calls ++ [next])]
            exact hdb2

theorem getAccount_selectedUpd (db : DB) (u : String) (top : List String) :
    getAccount { db with accounts :=
        (update_account_fields db.accounts u (selectedUpd top)) } u =
      (getAccount db u).map (applyUpdates (selectedUpd top)) :=
  find?_update_account db.accounts u (selectedUpd top)

theorem getAccount_mk_update (l : List AccountRow) (R : List ReelRow)
    (F : List FollowRow) (u : String) (upd : AccountUpdates) :
    getAccount
        { accounts := update_account_fields l u upd
          reels := R
          following := F } u =
      (l.find? (fun a => a.username == u)).map (applyUpdates upd) :=
  find?_update_account l u upd

theorem reelsSection_page2_exhausted (env : HikerEnv) (username pk : String)
    (target fuel : Nat) (db : DB) (items : List ClipItem) (t1 : Nat)
    (hp1 : retryCall (env.clipsAttempts none) 5 =
      some (ClipsResp.page items (some t1)))
    (hne : items.isEmpty = false)
    (hlen : items.length < target)
    (hp2 : retryCall (env.clipsAttempts (some t1)) 5 = none) :
    ∃ db2, reelsSection env username pk target (fuel + 1) db =
        (setReelsFlag db2 username, [none, some t1], false) ∧
      ((getAccount db username).isSome = true →
        (getAccount db2 username).isSome = true) := by
  unfold reelsSection
  rw [hp1]
  simp only [hne, Bool.false_eq_true, if_false]
  unfold clipsLoop
  rw [if_pos hlen]
  simp only [hp2]
  have hreels : (items.take target).isEmpty = false := by
    rw [List.isEmpty_eq_false]
    intro hnil
    rcases List.take_eq_nil_iff.1 hnil with h0 | h0
    · subst h0
      exact absurd hlen (by omega)
    · rw [h0] at hne
      cases hne
  rw [hreels]
  simp only [Bool.false_eq_true, if_false]
  refine ⟨_, rfl, ?_⟩
  intro hsome
  obtain ⟨a0, ha0⟩ := Option.isSome_iff_exists.1 hsome
  have hset : getAccount (setReelsFlag db username) username =
      some (applyUpdates reelsFlagUpd a0) := by
    rw [getAccount_setReelsFlag, ha0]
    rfl
  by_cases htop : (get_top_reels (save_reels (setReelsFlag db username).reels
      ((items.take target).filterMap (fun it => it.media)) pk) pk 5).isEmpty
  · rw [if_pos htop]
    show (getAccount (setReelsFlag db username) username).isSome = true
    rw [hset]
    rfl
  · rw [if_neg htop]
    rw [getAccount_mk_update]
    show (((getAccount (setReelsFlag db username) username).map
      (applyUpdates (selectedUpd _))).isSome) = true
    rw [hset]
    rfl

/-- The C2 counterexample profile (passes the skip policy). -/
def profileC2 : Profile :=
  { pk := "pk2", username := "u2", follower_count := 50000,
    following_count := 100, full_name := "", profile_pic_url := "",
    biography := "" }

/-- The C2 counterexample account row. -/
def accountC2 : AccountRow :=
  { username := "u2", insta_id := none, follower_count := none,
    following_count := none, full_name := none, url := none,
    profile_pic_url := none, biography := none, reels_list := none,
    reels_selected_list := none, all_reels_fetched_hiker := false,
    all_following_fetched_hiker := false }

/-- The C2 counterexample environment: every attempt of the first clips page
fails with a transport error, so the 5-attempt retry budget is exhausted. -/
def envC2 : HikerEnv :=
  { profileAttempts := fun _ => CallResult.ok (ProfileResp.found profileC2)
    clipsAttempts := fun _ _ => CallResult.netErr
    followingAttempts := fun _ _ => CallResult.ok FollowResp.malformed }

/-- The C2 counterexample database. -/
def dbC2 : DB := { accounts := [accountC2], reels := [], following := [] }

/-- C2 counterexample: exhausting the retry budget on the FIRST clips page is
NOT fatal — the run finishes (no process exit, unlike profile-fetch
exhaustion) and the account's reels completion flag is left false. -/
theorem c2_first_page_counterexample :
    (process_user_with_hiker envC2 "u2" 60 true true 1001 10000 3
        dbC2).outcome = HOutcome.finished ∧
      reelsFlag (process_user_with_hiker envC2 "u2" 60 true true 1001 10000 3
        dbC2).db "u2" = some false := by
  constructor <;> rfl

/-- C2 (amended): exhausting the 5-attempt retry budget on the first page of
the post fetch is NON-fatal: the processor returns, leaving the database with
only the profile upsert (no completion flag written) after one clips call and
no following call; retry exhaustion on the profile fetch is what exits the
process; and retry exhaustion on a subsequent page is also non-fatal and marks
the reels completion flag true. -/
theorem c2_amended_first_page_nonfatal (env env2 env3 : HikerEnv)
    (username username3 : String) (p p3 : Profile) (db db2 db3 : DB)
    (a3 : AccountRow) (target target3 fuel fuel3 : Nat)
    (ff ff3 : Bool) (maxF minF maxF3 minF3 : Int)
    (items3 : List ClipItem) (t3 : Nat)
    (hprof : retryCall env.profileAttempts 5 = some (ProfileResp.found p))
    (hun : p.username = username)
    (hpol : ¬(p.following_count > maxF ∨ p.follower_count < minF))
    (hfail1 : retryCall (env.clipsAttempts none) 5 = none)
    (hprof2 : retryCall env2.profileAttempts 5 = none)
    (hprof3 : retryCall env3.profileAttempts 5 = some (ProfileResp.found p3))
    (hun3 : p3.username = username3)
    (hacc3 : getAccount db3 username3 = some a3)
    (hpol3 : ¬(p3.following_count > maxF3 ∨ p3.follower_count < minF3))
    (hp31 : retryCall (env3.clipsAttempts none) 5 =
      some (ClipsResp.page items3 (some t3)))
    (hne3 : items3.isEmpty = false)
    (hlen3 : items3.length < target3)
    (hp32 : retryCall (env3.clipsAttempts (some t3)) 5 = none) :
    ((process_user_with_hiker env username target true ff maxF minF fuel
        db).outcome = HOutcome.finished ∧
      (process_user_with_hiker env username target true ff maxF minF fuel
        db).db = { db with accounts :=
          (upsert_account db.accounts p.username p.pk p.follower_count
            p.following_count (some p.full_name)
            (some ("https://www.instagram.com/" ++ p.username ++ "/"))
            (some p.profile_pic_url) (some p.biography)) } ∧
      (process_user_with_hiker env username target true ff maxF minF fuel
        db).clipsCalls = [none] ∧
      (process_user_with_hiker env username target true ff maxF minF fuel
        db).followingCalls = []) ∧
    (process_user_with_hiker env2 username target true ff maxF minF fuel
        db2).outcome = HOutcome.exited ∧
    ((process_user_with_hiker env3 username3 target3 true ff3 maxF3 minF3
        (fuel3 + 1) db3).outcome = HOutcome.finished ∧
      reelsFlag (process_user_with_hiker env3 username3 target3 true ff3 maxF3
        minF3 (fuel3 + 1) db3).db username3 = some true) := by
  subst hun
  subst hun3
  refine ⟨?_, ?_, ?_⟩
  · simp only [process_user_with_hiker, hprof]
    rw [if_neg hpol]
    simp only [if_true,
      reelsSection_exhausted env p.username p.pk target fuel _ hfail1]
    exact ⟨by trivial, by trivial, by trivial, by trivial⟩
  · simp only [process_user_with_hiker, hprof2]
  · obtain ⟨dbX, hsec, hpres⟩ := reelsSection_page2_exhausted env3 p3.username
      p3.pk target3 fuel3 { db3 with accounts :=
        (upsert_account db3.accounts p3.username p3.pk p3.follower_count
          p3.following_count (some p3.full_name)
          (some ("https://www.instagram.com/" ++ p3.username ++ "/"))
          (some p3.profile_pic_url) (some p3.biography)) } items3 t3 hp31 hne3
      hlen3 hp32
    simp only [process_user_with_hiker, hprof3]
    rw [if_neg hpol3]
    simp only [if_true, hsec]
    have hup : getAccount { db3 with accounts :=
        (upsert_account db3.accounts p3.username p3.pk p3.follower_count
          p3.following_count (some p3.full_name)
          (some ("https://www.instagram.com/" ++ p3.username ++ "/"))
          (some p3.profile_pic_url) (some p3.biography)) } p3.username =
        some (profOverwrite p3.pk p3.follower_count p3.following_count
          (some p3.full_name)
          (some ("https://www.instagram.com/" ++ p3.username ++ "/"))
          (some p3.profile_pic_url) (some p3.biography) a3) :=
      find?_upsert_account_of_found db3.accounts p3.username p3.pk
        p3.follower_count p3.following_count (some p3.full_name)
        (some ("https://www.instagram.com/" ++ p3.username ++ "/"))
        (some p3.profile_pic_url) (some p3.biography) a3 hacc3
    have hXsome : (getAccount dbX p3.username).isSome = true :=
      hpres (by rw [hup]; rfl)
    obtain ⟨aX, haX⟩ := Option.isSome_iff_exists.1 hXsome
    have hflag : reelsFlag (setReelsFlag dbX p3.username) p3.username =
        some true := by
      unfold reelsFlag
      rw [getAccount_setReelsFlag, haX]
      rfl
    constructor
    · cases ff3 <;> rfl
    · cases ff3 with
      | false =>
        simp only [Bool.false_eq_true, if_false]
        exact hflag
      | true =>
        simp only [if_true, Bool.false_eq_true, if_false]
        rw [followLoop_reelsFlag]
        exact hflag

/-- Media object for the C2 witness page. -/
def mediaC2 : Media :=
  { pk := "m2", id := "i2", code := "c2", taken_at := none,
    comment_count := none, like_count := none, play_count := some 1,
    video_duration := none, thumbnail_url := none, video_url := some "v",
    caption := none }

/-- Environment whose profile fetch always errors (part 2 of the witness). -/
def envC2b : HikerEnv :=
  { profileAttempts := fun _ => CallResult.netErr
    clipsAttempts := fun _ _ => CallResult.ok ClipsResp.malformed
    followingAttempts := fun _ _ => CallResult.ok FollowResp.malformed }

/-- Environment whose second clips page always errors (part 3). -/
def envC2c : HikerEnv :=
  { profileAttempts := fun _ => CallResult.ok (ProfileResp.found profileC2)
    clipsAttempts := fun tok _ =>
      match tok with
      | none => CallResult.ok (ClipsResp.page [{ media := some mediaC2 }] (some 1))
      | some _ => CallResult.netErr
    followingAttempts := fun _ _ => CallResult.ok FollowResp.malformed }

/-- Witness for the amended C2 at concrete environments. -/
theorem c2_amended_witness :
    ((process_user_with_hiker envC2 "u2" 60 true true 1001 10000 0
        dbC2).outcome = HOutcome.finished ∧
      (process_user_with_hiker envC2 "u2" 60 true true 1001 10000 0
        dbC2).db = { dbC2 with accounts :=
          (upsert_account dbC2.accounts profileC2.username profileC2.pk
            profileC2.follower_count profileC2.following_count
            (some profileC2.full_name)
            (some ("https://www.instagram.com/" ++ profileC2.username ++ "/"))
            (some profileC2.profile_pic_url) (some profileC2.biography)) } ∧
      (process_user_with_hiker envC2 "u2" 60 true true 1001 10000 0
        dbC2).clipsCalls = [none] ∧
      (process_user_with_hiker envC2 "u2" 60 true true 1001 10000 0
        dbC2).followingCalls = []) ∧
    (process_user_with_hiker envC2b "u2" 60 true true 1001 10000 0
        dbC2).outcome = HOutcome.exited ∧
    ((process_user_with_hiker envC2c "u2" 60 true true 1001 10000 1
        dbC2).outcome = HOutcome.finished ∧
      reelsFlag (process_user_with_hiker envC2c "u2" 60 true true 1001 10000 1
        dbC2).db "u2" = some true) :=
  c2_amended_first_page_nonfatal envC2 envC2b envC2c "u2" "u2" profileC2
    profileC2 dbC2 dbC2 dbC2 accountC2 60 60 0 0 true true 1001 10000 1001
    10000 [{ media := some mediaC2 }] 1
    rfl rfl (by decide) rfl rfl rfl rfl rfl (by decide) rfl rfl (by decide) rfl

/-! ## C6: the two-page 60-post scenario -/

theorem length_filterMap_of_isSome {α β : Type} (f : α → Option β) :
    ∀ (l : List α), (∀ x ∈ l, (f x).isSome = true) →
      (l.filterMap f).length = l.length
  | [], _ => rfl
  | x :: l, h => by
      obtain ⟨b, hb⟩ := Option.isSome_iff_exists.1 (h x (List.mem_cons_self _ _))
      simp only [List.filterMap_cons, hb, List.length_cons]
      rw [length_filterMap_of_isSome f l
        (fun y hy => h y (List.mem_cons_of_mem _ hy))]

theorem foldl_upsert_disjoint :
    ∀ (rows db : List ReelRow),
      (∀ r ∈ rows, r.pk ∉ db.map (fun x => x.pk)) →
      (rows.map (fun x => x.pk)).Nodup →
      rows.foldl upsertReel db = db ++ rows
  | [], db, _, _ => by simp
  | r :: rows, db, hdis, hnd => by
      rw [List.foldl_cons]
      have hnotany : ¬(db.any (fun x => x.pk == r.pk) = true) := fun hc =>
        hdis r (List.mem_cons_self _ _) ((any_pk_iff db r.pk).1 hc)
      have hup : upsertReel db r = db ++ [r] := by
        unfold upsertReel
        rw [if_neg hnotany]
      have hhead : r.pk ∉ rows.map (fun x => x.pk) :=
        (List.nodup_cons.1 (by simpa using hnd)).1
      have hdis2 : ∀ r2 ∈ rows, r2.pk ∉ (db ++ [r]).map (fun x => x.pk) := by
        intro r2 h2
        rw [List.map_append, List.mem_append]
        rintro (hc | hc)
        · exact hdis r2 (List.mem_cons_of_mem _ h2) hc
        · simp only [List.map_cons, List.map_nil, List.mem_singleton] at hc
          exact hhead (hc ▸ List.mem_map.2 ⟨r2, h2, rfl⟩)
      rw [hup, foldl_upsert_disjoint rows (db ++ [r]) hdis2
        (List.nodup_cons.1 (by simpa using hnd)).2]
      simp

/-- C6: with 0 existing posts, target 60, two pages of 30 items and then no
cursor, the run persists exactly 60 posts for the account, sets the reels
completion flag true, and persists as the selected set the 5 post ids that are
a prefix of a play-count-descending ordering of the persisted posts. -/
theorem c6_sixty_posts (env : HikerEnv) (username : String) (p : Profile)
    (db : DB) (a : AccountRow) (t1 : Nat) (items1 items2 : List ClipItem)
    (max_following min_followers : Int) (fuel : Nat)
    (hprof : retryCall env.profileAttempts 5 = some (ProfileResp.found p))
    (hun : p.username = username)
    (hacc : getAccount db username = some a)
    (hpol : ¬(p.following_count > max_following ∨
      p.follower_count < min_followers))
    (hp1 : retryCall (env.clipsAttempts none) 5 =
      some (ClipsResp.page items1 (some t1)))
    (hp2 : retryCall (env.clipsAttempts (some t1)) 5 =
      some (ClipsResp.page items2 none))
    (hl1 : items1.length = 30) (hl2 : items2.length = 30)
    (hmedia : ∀ it ∈ items1 ++ items2, (it.media).isSome = true)
    (hnodup : (((items1 ++ items2).filterMap (fun it => it.media)).map
      (fun m => m.pk)).Nodup)
    (hreels0 : db.reels = [])
    (hf : retryCall (env.followingAttempts none) 5 =
      some FollowResp.malformed) :
    (process_user_with_hiker env username 60 true true max_following
        min_followers (fuel + 1) db).db.reels.length = 60 ∧
      (∀ row ∈ (process_user_with_hiker env username 60 true true max_following
        min_followers (fuel + 1) db).db.reels, row.user_pk = p.pk) ∧
      reelsFlag (process_user_with_hiker env username 60 true true
        max_following min_followers (fuel + 1) db).db username = some true ∧
      ∃ sel, selectedOf (process_user_with_hiker env username 60 true true
          max_following min_followers (fuel + 1) db).db username =
          some (some sel) ∧ sel.length = 5 ∧
        ∃ sorted, sorted.Perm ((process_user_with_hiker env username 60 true
            true max_following min_followers (fuel + 1) db).db.reels.filter
            (fun row => row.user_pk == p.pk)) ∧
          List.Sorted playDescRel sorted ∧
          sel = (sorted.take 5).map (fun r => r.pk) := by
  subst hun
  have hlen12 : (items1 ++ items2).length = 60 := by
    rw [List.length_append, hl1, hl2]
  have hne1 : items1.isEmpty = false := by
    rw [List.isEmpty_eq_false]
    intro h0
    rw [h0] at hl1
    cases hl1
  have htake : (items1 ++ items2).take 60 = items1 ++ items2 := by
    rw [← hlen12, List.take_length]
  have hne12 : (items1 ++ items2).isEmpty = false := by
    rw [List.isEmpty_eq_false]
    intro h0
    rw [h0] at hlen12
    cases hlen12
  have hdatalen :
      ((items1 ++ items2).filterMap (fun it => it.media)).length = 60 := by
    rw [length_filterMap_of_isSome _ _ hmedia, hlen12]
  have hdatane :
      ((items1 ++ items2).filterMap (fun it => it.media)).isEmpty = false := by
    rw [List.isEmpty_eq_false]
    intro h0
    rw [h0] at hdatalen
    cases hdatalen
  have hrowlen : (((items1 ++ items2).filterMap (fun it => it.media)).map
      (fun m => mediaToRow m p.pk)).length = 60 := by
    rw [List.length_map, hdatalen]
  have hrowpks : ((((items1 ++ items2).filterMap (fun it => it.media)).map
      (fun m => mediaToRow m p.pk)).map (fun x => x.pk)) =
      (((items1 ++ items2).filterMap (fun it => it.media)).map
        (fun m => m.pk)) := by
    rw [List.map_map]
    exact List.map_congr_left (fun m _ => rfl)
  have hrownodup : (((((items1 ++ items2).filterMap (fun it => it.media)).map
      (fun m => mediaToRow m p.pk)).map (fun x => x.pk))).Nodup := by
    rw [hrowpks]
    exact hnodup
  have hsave : save_reels ([] : List ReelRow)
      ((items1 ++ items2).filterMap (fun it => it.media)) p.pk =
      (((items1 ++ items2).filterMap (fun it => it.media)).map
        (fun m => mediaToRow m p.pk)) := by
    unfold save_reels
    rw [hdatane]
    simp only [Bool.false_eq_true, if_false]
    have := foldl_upsert_disjoint
      ((((items1 ++ items2).filterMap (fun it => it.media)).map
        (fun m => mediaToRow m p.pk))) []
      (by intro r hr; simp) hrownodup
    simpa using this
  have hmemrow : ∀ row ∈ (((items1 ++ items2).filterMap
      (fun it => it.media)).map (fun m => mediaToRow m p.pk)),
      row.user_pk = p.pk := by
    intro row hr
    obtain ⟨m, _, rfl⟩ := List.mem_map.1 hr
    rfl
  have hfilter : ((((items1 ++ items2).filterMap (fun it => it.media)).map
      (fun m => mediaToRow m p.pk)).filter
        (fun row => row.user_pk == p.pk)) =
      (((items1 ++ items2).filterMap (fun it => it.media)).map
        (fun m => mediaToRow m p.pk)) := by
    rw [List.filter_eq_self]
    intro row hr
    rw [hmemrow row hr]
    simp
  have htop_eq : get_top_reels ((((items1 ++ items2).filterMap
      (fun it => it.media)).map (fun m => mediaToRow m p.pk))) p.pk 5 =
      ((((((items1 ++ items2).filterMap (fun it => it.media)).map
        (fun m => mediaToRow m p.pk)).insertionSort playDescRel).take 5).map
          (fun r => r.pk)) := by
    unfold get_top_reels
    rw [hfilter, ← List.map_take]
  have htoplen : (get_top_reels ((((items1 ++ items2).filterMap
      (fun it => it.media)).map (fun m => mediaToRow m p.pk))) p.pk 5).length
      = 5 := by
    rw [htop_eq, List.length_map, List.length_take,
      (List.perm_insertionSort playDescRel _).length_eq, hrowlen]
    decide
  have htopne : (get_top_reels ((((items1 ++ items2).filterMap
      (fun it => it.media)).map (fun m => mediaToRow m p.pk))) p.pk
      5).isEmpty = false := by
    rw [List.isEmpty_eq_false]
    intro h0
    rw [h0] at htoplen
    cases htoplen
  have hloop : ∀ db' : DB,
      clipsLoop env p.username 60 (fuel + 1) items1 (some t1) db' [none] =
        (items1 ++ items2, setReelsFlag db' p.username, [none, some t1]) := by
    intro db'
    unfold clipsLoop
    rw [if_pos (by omega)]
    simp [hp2]
  have hsec : ∀ db' : DB, db'.reels = [] →
      reelsSection env p.username p.pk 60 (fuel + 1) db' =
        (setReelsFlag
          { accounts := update_account_fields
              (update_account_fields db'.accounts p.username reelsFlagUpd)
              p.username (selectedUpd (get_top_reels
                ((((items1 ++ items2).filterMap (fun it => it.media)).map
                  (fun m => mediaToRow m p.pk))) p.pk 5))
            reels := (((items1 ++ items2).filterMap (fun it => it.media)).map
              (fun m => mediaToRow m p.pk))
            following := db'.following } p.username,
          [none, some t1], false) := by
    intro db' hdbr
    unfold reelsSection
    rw [hp1]
    simp only [hne1, Bool.false_eq_true, if_false]
    rw [hloop db']
    simp only []
    rw [htake]
    simp only [hne12, Bool.false_eq_true, if_false]
    have hsetreels : (setReelsFlag db' p.username).reels = ([] : List ReelRow) :=
      hdbr
    rw [hsetreels, hsave]
    simp only [htopne, Bool.false_eq_true, if_false]
    rfl
  have hreels1 : ({ db with accounts :=
      (upsert_account db.accounts p.username p.pk p.follower_count
        p.following_count (some p.full_name)
        (some ("https://www.instagram.com/" ++ p.username ++ "/"))
        (some p.profile_pic_url) (some p.biography)) } : DB).reels = [] :=
    hreels0
  have hfollow : ∀ db'' : DB,
      followLoop env p.username p.pk (fuel + 1) none db'' [] =
        (setFollowingFlag db'' p.username, [none]) := by
    intro db''
    unfold followLoop
    simp [hf]
  have hupList : (upsert_account db.accounts p.username p.pk p.follower_count
      p.following_count (some p.full_name)
      (some ("https://www.instagram.com/" ++ p.username ++ "/"))
      (some p.profile_pic_url) (some p.biography)).find?
        (fun x => x.username == p.username) =
      some (profOverwrite p.pk p.follower_count p.following_count
        (some p.full_name)
        (some ("https://www.instagram.com/" ++ p.username ++ "/"))
        (some p.profile_pic_url) (some p.biography) a) :=
    find?_upsert_account_of_found db.accounts p.username p.pk p.follower_count
      p.following_count (some p.full_name)
      (some ("https://www.instagram.com/" ++ p.username ++ "/"))
      (some p.profile_pic_url) (some p.biography) a hacc
  simp only [process_user_with_hiker, hprof]
  rw [if_neg hpol]
  simp only [if_true]
  rw [hsec _ hreels1]
  simp only [Bool.false_eq_true, if_false, if_true]
  rw [hfollow]
  have hgetDB2 : getAccount
      { accounts := update_account_fields
          (update_account_fields
            (upsert_account db.accounts p.username p.pk p.follower_count
              p.following_count (some p.full_name)
              (some ("https://www.instagram.com/" ++ p.username ++ "/"))
              (some p.profile_pic_url) (some p.biography))
            p.username reelsFlagUpd)
          p.username (selectedUpd (get_top_reels
            ((((items1 ++ items2).filterMap (fun it => it.media)).map
              (fun m => mediaToRow m p.pk))) p.pk 5))
        reels := (((items1 ++ items2).filterMap (fun it => it.media)).map
          (fun m => mediaToRow m p.pk))
        following := db.following } p.username =
      some (applyUpdates (selectedUpd (get_top_reels
          ((((items1 ++ items2).filterMap (fun it => it.media)).map
            (fun m => mediaToRow m p.pk))) p.pk 5))
        (applyUpdates reelsFlagUpd
          (profOverwrite p.pk p.follower_count p.following_count
            (some p.full_name)
            (some ("https://www.instagram.com/" ++ p.username ++ "/"))
            (some p.profile_pic_url) (some p.biography) a))) := by
    rw [getAccount_mk_update, find?_update_account, hupList]
    rfl
  refine ⟨?_, ?_, ?_, ?_⟩
  · exact hrowlen
  · exact hmemrow
  · rw [reelsFlag_setFollowingFlag]
    unfold reelsFlag
    rw [getAccount_setReelsFlag, hgetDB2]
    rfl
  · refine ⟨get_top_reels ((((items1 ++ items2).filterMap
      (fun it => it.media)).map (fun m => mediaToRow m p.pk))) p.pk 5,
      ?_, htoplen, ?_⟩
    · unfold selectedOf
      rw [getAccount_setFollowingFlag, getAccount_setReelsFlag, hgetDB2]
      rfl
    · refine ⟨((((items1 ++ items2).filterMap (fun it => it.media)).map
        (fun m => mediaToRow m p.pk)).insertionSort playDescRel), ?_, ?_, ?_⟩
      · show List.Perm _ (((((items1 ++ items2).filterMap
          (fun it => it.media)).map (fun m => mediaToRow m p.pk)).filter
            (fun row => row.user_pk == p.pk)))
        rw [hfilter]
        exact List.perm_insertionSort playDescRel _
      · exact List.sorted_insertionSort playDescRel _
      · rw [htop_eq]

/-- Media object number `n` for the C6 witness (distinct pk, play count `n`). -/
def mediaC6 (n : Nat) : Media :=
  { pk := "p" ++ toString n, id := "i" ++ toString n, code := "c",
    taken_at := none, comment_count := none, like_count := none,
    play_count := some (n : Int), video_duration := none,
    thumbnail_url := none, video_url := some "v", caption := none }

/-- First witness page: 30 items. -/
def itemsC6a : List ClipItem :=
  (List.range 30).map (fun n => { media := some (mediaC6 n) })

/-- Second witness page: 30 more items. -/
def itemsC6b : List ClipItem :=
  (List.range 30).map (fun n => { media := some (mediaC6 (30 + n)) })

/-- The C6 witness profile (passes the skip policy). -/
def profileC6 : Profile :=
  { pk := "pk6", username := "u6", follower_count := 50000,
    following_count := 100, full_name := "", profile_pic_url := "",
    biography := "" }

/-- The C6 witness account row. -/
def accountC6 : AccountRow :=
  { username := "u6", insta_id := none, follower_count := none,
    following_count := none, full_name := none, url := none,
    profile_pic_url := none, biography := none, reels_list := none,
    reels_selected_list := none, all_reels_fetched_hiker := false,
    all_following_fetched_hiker := false }

/-- The C6 witness database: no existing posts. -/
def dbC6 : DB := { accounts := [accountC6], reels := [], following := [] }

/-- The C6 witness environment: two pages of 30 items, then no cursor. -/
def envC6 : HikerEnv :=
  { profileAttempts := fun _ => CallResult.ok (ProfileResp.found profileC6)
    clipsAttempts := fun tok _ =>
      match tok with
      | none => CallResult.ok (ClipsResp.page itemsC6a (some 1))
      | some 1 => CallResult.ok (ClipsResp.page itemsC6b none)
      | some _ => CallResult.ok ClipsResp.malformed
    followingAttempts := fun _ _ => CallResult.ok FollowResp.malformed }

/-- Witness for C6 at the concrete two-page scenario. -/
theorem c6_sixty_posts_witness :
    (process_user_with_hiker envC6 "u6" 60 true true 1001 10000 (0 + 1)
        dbC6).db.reels.length = 60 ∧
      (∀ row ∈ (process_user_with_hiker envC6 "u6" 60 true true 1001 10000
        (0 + 1) dbC6).db.reels, row.user_pk = profileC6.pk) ∧
      reelsFlag (process_user_with_hiker envC6 "u6" 60 true true 1001 10000
        (0 + 1) dbC6).db "u6" = some true ∧
      ∃ sel, selectedOf (process_user_with_hiker envC6 "u6" 60 true true 1001
          10000 (0 + 1) dbC6).db "u6" = some (some sel) ∧ sel.length = 5 ∧
        ∃ sorted, sorted.Perm ((process_user_with_hiker envC6 "u6" 60 true
            true 1001 10000 (0 + 1) dbC6).db.reels.filter
            (fun row => row.user_pk == profileC6.pk)) ∧
          List.Sorted playDescRel sorted ∧
          sel = (sorted.take 5).map (fun r => r.pk) :=
  c6_sixty_posts envC6 "u6" profileC6 dbC6 accountC6 1 itemsC6a itemsC6b
    1001 10000 0 rfl rfl rfl (by decide) rfl rfl (by decide) (by decide)
    (by decide) (by decide) rfl rfl
